import Mathlib

/-!
Verification development for the Decathlon_Automation lunch-job rostering
engine (helpers/lunch_job_helpers.py).  DataFrames are embedded as lists of
records in row order; boolean-mask updates become `List.map` with a guard;
`random.shuffle` is modelled as the identity permutation, `random.choice`
and `DataFrame.sample(n=1)` as explicit parameters or first-element choice
(noted at each definition).  Display-only columns (job_code, job_name,
staff_name) that the algorithms copy around but never branch on are omitted;
catalog lookups that only read those display fields are likewise omitted.
-/

namespace Decathlon

/-- Attendance pattern label: recurring A/B day split. -/
inductive Pattern where
  | A
  | B
deriving DecidableEq, Repr

/-- 'B' if x == 'A' else 'A' : the ubiquitous pattern flip. -/
def Pattern.flip : Pattern → Pattern
  | .A => .B
  | .B => .A

/-- Raw eligible-staff row as returned by get_eligible_staff_sql
(staff_id, role_id, group_id); display name omitted. -/
structure StaffRow where
  staff_id : Nat
  role_id : Nat
  group_id : Nat
deriving DecidableEq, Repr

/-- Staff row after pattern assignment: carries the mutable
actual_assignment and the group-level pattern_exception flag. -/
structure Staff where
  staff_id : Nat
  role_id : Nat
  group_id : Nat
  actual_assignment : Pattern
  pattern_exception : Bool
deriving DecidableEq, Repr

/-- Lunch-job catalog row (camp.job columns used by the engine).
Nullable numeric columns are Options, matching pd.notna guards in the code. -/
structure Job where
  job_id : Nat
  min_staff_assigned : Option Nat
  normal_staff_assigned : Option Nat
  max_staff_assigned : Option Nat
  priority : Option Nat
deriving DecidableEq, Repr

/-- A hardcoded assignment row produced by process_hardcoded_assignments:
(day_name, staff_id, job_id); job_code/job_name display columns omitted. -/
structure HardAssign where
  day_name : String
  staff_id : Nat
  job_id : Nat
deriving DecidableEq, Repr

/-- A full assignment row in df_all_assignments.  job_id is None (NaN) for
substitute rows; assignment_type is the phase tag the code itself records. -/
structure Assignment where
  day_name : String
  staff_id : Nat
  job_id : Option Nat
  assignment_type : String
deriving DecidableEq, Repr

/-- str.lower(), character by character (a kernel-reducible equivalent of
String.toLower). -/
def lowerString (s : String) : String := ⟨s.data.map Char.toLower⟩

/-- Weekday → pattern rule duplicated throughout the source:
`'A' if day.lower() in ['monday', 'wednesday'] else 'B'`. -/
def day_pattern (day : String) : Pattern :=
  if lowerString day = "monday" ∨ lowerString day = "wednesday" then .A else .B

/-- pandas Series.unique(), with the already-seen values accumulated. -/
def uniqueKeepFirstAux (seen : List String) : List String → List String
  | [] => []
  | d :: rest =>
    if seen.contains d then uniqueKeepFirstAux seen rest
    else d :: uniqueKeepFirstAux (d :: seen) rest

/-- pandas Series.unique(): keep the first occurrence of each value. -/
def uniqueKeepFirst (l : List String) : List String :=
  uniqueKeepFirstAux [] l

/-- Staff lookup giving the (first) pattern recorded for a staff id, as
`df[df['staff_id'] == sid].iloc[0]['actual_assignment']` would. -/
def lookupPattern (df : List Staff) (sid : Nat) : Option Pattern :=
  (df.filter (fun r => r.staff_id == sid)).head?.map (·.actual_assignment)

/-- All rows of a staff table belonging to one staff id. -/
def staffRows (df : List Staff) (sid : Nat) : List Staff :=
  df.filter (fun r => r.staff_id == sid)

/-- balance_schedule_for_job (lunch_job_helpers.py):
ensures the first two staff pinned to a pattern-based job sit on opposite
A/B schedules; if not, flips the entire group of the second matching row. -/
def balance_schedule_for_job (df_staff_clean : List Staff)
    (staff_ids_for_job : List Nat) : List Staff :=
  if staff_ids_for_job.length < 2 then df_staff_clean
  else
    let staff_subset :=
      df_staff_clean.filter
        (fun r => (staff_ids_for_job.take 2).contains r.staff_id)
    match staff_subset with
    | r0 :: r1 :: _ =>
      if r0.actual_assignment ≠ r1.actual_assignment then df_staff_clean
      else
        let switch_group_id := r1.group_id
        df_staff_clean.map (fun r =>
          if r.group_id == switch_group_id then
            { r with actual_assignment := r.actual_assignment.flip }
          else r)
    | _ => df_staff_clean

/-- Entry of the staff_to_add override list: a dict whose missing keys are
defaulted inside process_hardcoded_assignments. -/
structure NewStaff where
  staff_id : Nat
  group_id : Nat
  actual_assignment : Option Pattern
  role_id : Option Nat
  pattern_exception : Option Bool
deriving DecidableEq, Repr

/-- custom_job_assignments override: 'all_days' job→staff pins and
'specific_days' (staff_id, job_id, day_name) pins. -/
structure CustomJobAssignments where
  all_days : List (Nat × List Nat)
  specific_days : List (Nat × Nat × String)
deriving DecidableEq, Repr

/-- tie_dye_assignments_by_day dictionary lookup. -/
def dayList (byDay : List (String × List Nat)) (d : String) : List Nat :=
  ((byDay.find? (fun p => p.1 == d)).map Prod.snd).getD []

/-- tie_dye_assignments_by_day dictionary update of one day's list. -/
def setDayList (byDay : List (String × List Nat)) (d : String)
    (l : List Nat) : List (String × List Nat) :=
  byDay.map (fun p => if p.1 == d then (p.1, l) else p)

/-- Flip every member of one group (A↔B) and record
pattern_exception = True, as the tie-dye balancing move does. -/
def flipGroupMarkException (df : List Staff) (gid : Nat) : List Staff :=
  df.map (fun r =>
    if r.group_id == gid then
      { r with actual_assignment := r.actual_assignment.flip,
               pattern_exception := true }
    else r)

/-- One balancing move of the tie-dye section: look up the staff row,
flip their whole group, and move the id from the larger day's list to the
smaller day's list.  (A missing staff row cannot occur here because only
ids found in the table were placed in the day lists.) -/
def tie_dye_move (larger_day smaller_day : String)
    (state : List Staff × List (String × List Nat)) (sid : Nat) :
    List Staff × List (String × List Nat) :=
  let df := state.1
  let byDay := state.2
  match (df.filter (fun r => r.staff_id == sid)).head? with
  | none => state
  | some row =>
    let df' := flipGroupMarkException df row.group_id
    let byDay' := setDayList byDay larger_day
      ((dayList byDay larger_day).erase sid)
    let byDay'' := setDayList byDay' smaller_day
      (dayList byDay' smaller_day ++ [sid])
    (df', byDay'')

/-- Whether tie-dye staff sid works day d: their (first) staff row's
pattern equals the day's pattern; missing staff are skipped with a warning. -/
def eligibleOn (df : List Staff) (sid : Nat) (d : String) : Bool :=
  match lookupPattern df sid with
  | some p => p == day_pattern d
  | none => false

/-- Tie-dye section of process_hardcoded_assignments (the Core revision):
Step 1 day patterns, Step 2 pattern matching, Step 3 minimum-2 enforcement
(borrowing staff from the other day to work BOTH days) and balancing
(moving staff and flipping their whole group, marking pattern_exception).
Returns the final by-day id lists and the possibly mutated staff table. -/
def tie_dye_block (df : List Staff) (staff_game_days : List String)
    (tie_dye_days : List String) (tie_dye_staff : List Nat) :
    List (String × List Nat) × List Staff :=
  let non_sg := tie_dye_days.filter (fun d => ¬ staff_game_days.contains d)
  let byDay0 := non_sg.map (fun d =>
    (d, tie_dye_staff.filter (fun sid => eligibleOn df sid d)))
  match non_sg with
  | [d1, d2] =>
    let c1 := (dayList byDay0 d1).length
    let c2 := (dayList byDay0 d2).length
    let byDay1 :=
      if c1 < 2 ∨ c2 < 2 then
        let deficit_day := if c1 < 2 then d1 else d2
        let source_day := if c1 < 2 then d2 else d1
        let deficit := if c1 < 2 then 2 - c1 else 2 - c2
        if deficit ≤ (dayList byDay0 source_day).length then
          setDayList byDay0 deficit_day
            (dayList byDay0 deficit_day ++
              (dayList byDay0 source_day).take deficit)
        else
          byDay0.map (fun p => (p.1, tie_dye_staff))
      else byDay0
    let c1' := (dayList byDay1 d1).length
    let c2' := (dayList byDay1 d2).length
    if c1' ≥ 2 ∧ c2' ≥ 2 ∧ c1' ≠ c2' then
      let larger_day := if c1' > c2' then d1 else d2
      let smaller_day := if c1' > c2' then d2 else d1
      let larger_count := (dayList byDay1 larger_day).length
      let max_can_move := larger_count - 2
      let num_to_move := min (((c1' : Int) - c2').natAbs / 2) max_can_move
      if num_to_move > 0 then
        let staff_only_on_larger := (dayList byDay1 larger_day).filter
          (fun s => ¬ (dayList byDay1 smaller_day).contains s)
        let staff_to_move := staff_only_on_larger.take num_to_move
        let final := staff_to_move.foldl
          (tie_dye_move larger_day smaller_day) (df, byDay1)
        (final.2, final.1)
      else (byDay1, df)
    else (byDay1, df)
  | [d] =>
    if (dayList byDay0 d).length < 2 then
      (setDayList byDay0 d tie_dye_staff, df)
    else (byDay0, df)
  | _ => (byDay0, df)

/-- drop_duplicates(subset=['day_name','staff_id'], keep='first'). -/
def dedupDayStaffAux : List (String × Nat) → List HardAssign → List HardAssign
  | _, [] => []
  | seen, a :: rest =>
    if seen.contains (a.day_name, a.staff_id) then dedupDayStaffAux seen rest
    else a :: dedupDayStaffAux ((a.day_name, a.staff_id) :: seen) rest

/-- Keep the first hardcoded assignment per (day, staff) pair. -/
def dedupDayStaff (l : List HardAssign) : List HardAssign :=
  dedupDayStaffAux [] l

/-- process_hardcoded_assignments (Core revision): staff add/remove, staff
game days (job 1100), pattern-based jobs (balanced then pinned to matching
days), the tie-dye section (job 1045), custom assignments, and keep-first
deduplication.  The catalog parameter is omitted: the source reads it only
for job_code/job_name display fields. -/
def process_hardcoded_assignments
    (pattern_based_jobs : List (Nat × List Nat))
    (staff_game_days : List String)
    (tie_dye_days : List String)
    (tie_dye_staff : List Nat)
    (df_staff_clean : List Staff)
    (df_days : List String)
    (staff_to_remove : List Nat)
    (staff_to_add : List NewStaff)
    (custom_job_assignments : Option CustomJobAssignments) :
    List HardAssign × List Staff :=
  let df1 :=
    if staff_to_remove ≠ [] then
      df_staff_clean.filter (fun r => ¬ staff_to_remove.contains r.staff_id)
    else df_staff_clean
  let df2 := df1 ++ staff_to_add.map (fun n =>
    { staff_id := n.staff_id, group_id := n.group_id,
      role_id := n.role_id.getD 1005,
      actual_assignment := n.actual_assignment.getD .A,
      pattern_exception := n.pattern_exception.getD false })
  let sg : List HardAssign :=
    staff_game_days.flatMap (fun d =>
      df2.map (fun r => { day_name := d, staff_id := r.staff_id,
                          job_id := 1100 }))
  let df3 := pattern_based_jobs.foldl (fun df p =>
    if p.2.length ≥ 2 then balance_schedule_for_job df p.2 else df) df2
  let pj : List HardAssign := pattern_based_jobs.flatMap (fun p =>
    p.2.flatMap (fun sid =>
      match (df3.filter (fun r => r.staff_id == sid)).head? with
      | none => []
      | some row =>
        (uniqueKeepFirst df_days).filterMap (fun d =>
          if staff_game_days.contains d then none
          else if row.actual_assignment = day_pattern d then
            some { day_name := d, staff_id := sid, job_id := p.1 }
          else none)))
  let tdRes :=
    if tie_dye_days ≠ [] ∧ tie_dye_staff ≠ [] then
      tie_dye_block df3 staff_game_days tie_dye_days tie_dye_staff
    else ([], df3)
  let td : List HardAssign := tdRes.1.flatMap (fun p =>
    p.2.map (fun sid => { day_name := p.1, staff_id := sid, job_id := 1045 }))
  let df4 := tdRes.2
  let cu : List HardAssign :=
    match custom_job_assignments with
    | none => []
    | some c =>
      (c.all_days.flatMap (fun p =>
        p.2.flatMap (fun sid =>
          match (df4.filter (fun r => r.staff_id == sid)).head? with
          | none => []
          | some row =>
            (uniqueKeepFirst df_days).filterMap (fun d =>
              if staff_game_days.contains d then none
              else if row.actual_assignment = day_pattern d then
                some { day_name := d, staff_id := sid, job_id := p.1 }
              else none))))
      ++ c.specific_days.map (fun t =>
        { day_name := t.2.2, staff_id := t.1, job_id := t.2.1 })
  (dedupDayStaff (sg ++ pj ++ td ++ cu), df4)

/-- Count of staff rows currently holding a pattern. -/
def patternCount (df : List Staff) (p : Pattern) : Nat :=
  (df.filter (fun r => r.actual_assignment == p)).length

/-- Global pattern skew |countA − countB| of a staff table. -/
def skew (df : List Staff) : Nat :=
  ((patternCount df .A : Int) - patternCount df .B).natAbs

/-- First-seen distinct naturals. -/
def dedupKeepFirstNatAux (seen : List Nat) : List Nat → List Nat
  | [] => []
  | d :: rest =>
    if seen.contains d then dedupKeepFirstNatAux seen rest
    else d :: dedupKeepFirstNatAux (d :: seen) rest

/-- First-seen distinct naturals. -/
def dedupKeepFirstNat (l : List Nat) : List Nat :=
  dedupKeepFirstNatAux [] l

/-- Insertion into an ascending-sorted list of naturals. -/
def insertNatAsc (x : Nat) : List Nat → List Nat
  | [] => [x]
  | h :: t => if h ≤ x then h :: insertNatAsc x t else x :: h :: t

/-- Ascending insertion sort of naturals. -/
def sortNatAsc : List Nat → List Nat
  | [] => []
  | x :: t => insertNatAsc x (sortNatAsc t)

/-- Sorted distinct naturals (pandas drop_duplicates + sort_values). -/
def sortedDedup (l : List Nat) : List Nat :=
  sortNatAsc (dedupKeepFirstNat l)

/-- Sorted distinct group ids of a staff table (pandas groupby iterates
keys in ascending order). -/
def sortedGroupIds (df : List Staff) : List Nat :=
  sortedDedup (df.map (·.group_id))

/-- Candidate record of balance_pattern_distribution's group ranking. -/
structure GroupInfo where
  group_id : Nat
  larger_count : Nat
  smaller_count : Nat
  net_swap : Int
deriving DecidableEq, Repr

/-- Stable insertion of a candidate into a list sorted by net_swap
descending (Python's stable list.sort with reverse=True). -/
def insertByNetDesc (g : GroupInfo) : List GroupInfo → List GroupInfo
  | [] => [g]
  | h :: t =>
    if h.net_swap ≥ g.net_swap then h :: insertByNetDesc g t else g :: h :: t

/-- Stable sort by net_swap descending. -/
def sortByNetDesc : List GroupInfo → List GroupInfo
  | [] => []
  | g :: t => insertByNetDesc g (sortByNetDesc t)

/-- The swap loop of balance_pattern_distribution: walk the ranked
candidates once, flipping a group's non-pinned members whenever the
internally tracked difference would not grow, stopping at ≤ 2.
The tracked difference is |current − 2·net| with net computed against the
pattern that was larger at entry. -/
def balance_swap_loop (hardcoded_staff_ids : List Nat)
    (larger_pattern smaller_pattern : Pattern) :
    List GroupInfo → List Staff → Nat → List Staff × Nat
  | [], df, current_diff => (df, current_diff)
  | g :: rest, df, current_diff =>
    if current_diff ≤ 2 then (df, current_diff)
    else
      let new_diff := ((current_diff : Int) - 2 * g.net_swap).natAbs
      if new_diff < current_diff ∨
          (new_diff = current_diff ∧ g.net_swap > 0) then
        let df' := df.map (fun r =>
          if r.group_id == g.group_id ∧
              ¬ hardcoded_staff_ids.contains r.staff_id then
            { r with actual_assignment :=
                if r.actual_assignment = larger_pattern then smaller_pattern
                else larger_pattern }
          else r)
        balance_swap_loop hardcoded_staff_ids larger_pattern smaller_pattern
          rest df' new_diff
      else
        balance_swap_loop hardcoded_staff_ids larger_pattern smaller_pattern
          rest df current_diff

/-- balance_pattern_distribution: if the global skew exceeds 2, rank the
groups of non-hardcoded staff by net_swap = largerCount − smallerCount
descending (only groups with staff in the larger pattern) and flip their
non-pinned members group by group while the tracked difference improves. -/
def balance_pattern_distribution (df_staff : List Staff)
    (hardcoded_staff_ids : List Nat) : List Staff :=
  let count_a := patternCount df_staff .A
  let count_b := patternCount df_staff .B
  if ((count_a : Int) - count_b).natAbs ≤ 2 then df_staff
  else
    let larger_pattern : Pattern := if count_a > count_b then .A else .B
    let smaller_pattern : Pattern := if count_a > count_b then .B else .A
    let eligible := df_staff.filter
      (fun r => ¬ hardcoded_staff_ids.contains r.staff_id)
    let group_patterns := (sortedGroupIds eligible).filterMap (fun gid =>
      let grp := eligible.filter (fun r => r.group_id == gid)
      let larger_count := (grp.filter
        (fun r => r.actual_assignment == larger_pattern)).length
      let smaller_count := (grp.filter
        (fun r => r.actual_assignment == smaller_pattern)).length
      if larger_count > 0 then
        some { group_id := gid, larger_count := larger_count,
               smaller_count := smaller_count,
               net_swap := (larger_count : Int) - smaller_count }
      else none)
    (balance_swap_loop hardcoded_staff_ids larger_pattern smaller_pattern
      (sortByNetDesc group_patterns) df_staff
      ((count_a : Int) - count_b).natAbs).1

/-- _balance_single_role_patterns: flip ⌊skew/2⌋ non-hardcoded staff of one
role from the larger pattern to the smaller (individual flips, no groups). -/
def balance_single_role_patterns (df_staff : List Staff) (role_id : Nat)
    (hardcoded_staff_ids : List Nat) : List Staff :=
  let role_staff := df_staff.filter (fun r => r.role_id == role_id)
  let count_a := patternCount role_staff .A
  let count_b := patternCount role_staff .B
  let larger_pattern : Pattern := if count_a > count_b then .A else .B
  let smaller_pattern : Pattern := if count_a > count_b then .B else .A
  let eligible_staff := role_staff.filter (fun r =>
    r.actual_assignment == larger_pattern ∧
    ¬ hardcoded_staff_ids.contains r.staff_id)
  let num_to_swap := min (((count_a : Int) - count_b).natAbs / 2)
    eligible_staff.length
  if num_to_swap = 0 then df_staff
  else
    let staff_to_swap := (eligible_staff.take num_to_swap).map (·.staff_id)
    df_staff.map (fun r =>
      if staff_to_swap.contains r.staff_id then
        { r with actual_assignment := smaller_pattern }
      else r)

/-- balance_role_patterns: compute each role's skew on the input table and
rebalance a role individually only when its skew exceeds 3. -/
def balance_role_patterns (df_staff : List Staff)
    (hardcoded_staff_ids : List Nat) : List Staff :=
  let counselors := df_staff.filter (fun r => r.role_id == 1005)
  let c_diff := ((patternCount counselors .A : Int) -
    patternCount counselors .B).natAbs
  let jcs := df_staff.filter (fun r => r.role_id == 1006)
  let jc_diff := ((patternCount jcs .A : Int) -
    patternCount jcs .B).natAbs
  let df1 :=
    if c_diff > 3 then
      balance_single_role_patterns df_staff 1005 hardcoded_staff_ids
    else df_staff
  if jc_diff > 3 then
    balance_single_role_patterns df1 1006 hardcoded_staff_ids
  else df1

/-- Fix applied by validate_and_fix_group_pattern_coverage to one group
whose members all hold one pattern: swap the minority role when both roles
are present, otherwise swap the first half (at least one) of the single
role, to the opposite pattern. -/
def fixGroupCoverage (df : List Staff) (gid : Nat) : List Staff :=
  let group_staff := df.filter (fun r => r.group_id == gid)
  if group_staff.length = 1 then df
  else
    let counselors := group_staff.filter (fun r => r.role_id == 1005)
    let jcs := group_staff.filter (fun r => r.role_id == 1006)
    match group_staff.head? with
    | none => df
    | some first =>
      let opposite := first.actual_assignment.flip
      let staff_to_swap :=
        if counselors.length > 0 ∧ jcs.length > 0 then
          if counselors.length > jcs.length then jcs else counselors
        else if counselors.length > 0 then
          counselors.take (max (counselors.length / 2) 1)
        else if jcs.length > 0 then
          jcs.take (max (jcs.length / 2) 1)
        else []
      let ids := staff_to_swap.map (·.staff_id)
      df.map (fun r =>
        if r.group_id == gid ∧ ids.contains r.staff_id then
          { r with actual_assignment := opposite }
        else r)

/-- validate_and_fix_group_pattern_coverage: detect groups with zero staff
in one pattern and fix each such group (set→list iteration modelled as
first-seen order; the per-group fixes are independent). -/
def validate_and_fix_group_pattern_coverage (df_staff : List Staff) :
    List Staff :=
  let groups_to_fix := (sortedGroupIds df_staff).filter (fun gid =>
    let grp := df_staff.filter (fun r => r.group_id == gid)
    patternCount grp .A = 0 ∨ patternCount grp .B = 0)
  if groups_to_fix = [] then df_staff
  else groups_to_fix.foldl fixGroupCoverage df_staff

/-- Jobs a staff member may not be swapped away from when repairing the
counselor-activity role mix (Arts & Crafts, Card Trading, Tie Dye,
Staff Game, Obstacle Course, Tallying Scores). -/
def PROTECTED_JOB_IDS : List Nat := [1001, 1009, 1045, 1100, 1013, 1041]

/-- A NaN job id (substitute row) passes a `~isin` protected-set test. -/
def notProtected (protected_ids : List Nat) (j : Option Nat) : Bool :=
  match j with
  | some jid => ¬ protected_ids.contains jid
  | none => true

/-- Number of swappable assignments sharing one (non-NaN) job id, as
`swappable.groupby('job_id').size()` (NaN keys dropped → count 0). -/
def jobStaffCount (swappable : List Assignment) (j : Option Nat) : Nat :=
  match j with
  | some jid => (swappable.filter (fun r => r.job_id == some jid)).length
  | none => 0

/-- First pass of the counselor-activity repair: scan candidates in staff
table order and keep the candidate on the most-staffed (>1) swappable job. -/
def bestMultiStaffCandidate (swappable : List Assignment)
    (candidates : List Staff) : Option Nat :=
  (candidates.foldl (fun best sm =>
    match swappable.find? (fun r => r.staff_id == sm.staff_id) with
    | none => best
    | some row =>
      let staff_on_job := jobStaffCount swappable row.job_id
      if staff_on_job > 1 ∧ staff_on_job > best.2 then
        (some sm.staff_id, staff_on_job)
      else best) ((none : Option Nat), 0)).1

/-- The staff ids assigned to counselor activity (job 1005) on one day
(case-insensitive day match). -/
def ca_day_staff_ids (t : List Assignment) (day : String) : List Nat :=
  (t.filter (fun r =>
    lowerString r.day_name == lowerString day ∧
    r.job_id == some 1005)).map (·.staff_id)

/-- The staff-table rows of one day's counselor-activity assignees. -/
def ca_day_staff_roles (t : List Assignment) (df_staff_clean : List Staff)
    (day : String) : List Staff :=
  df_staff_clean.filter
    (fun r => (ca_day_staff_ids t day).contains r.staff_id)

/-- One day's repair step of ensure_counselor_on_counselor_activity:
if the counselor-activity roster for the day has zero of one role, swap in
a same-pattern staff member of the needed role from a non-protected job
on the same day (preferring multi-staff jobs), moving out one staff member
of the excess role.  Day comparisons are case-insensitive as in the source;
the sequential pair of .loc updates is a single map (the incoming update,
applied second in the source, takes precedence). -/
def ensure_ca_day (df_staff_clean : List Staff) (t : List Assignment)
    (day : String) : List Assignment :=
  let ca_staff_ids := ca_day_staff_ids t day
  if ca_staff_ids = [] then t
  else
    let ca_staff_roles := ca_day_staff_roles t df_staff_clean day
    let counselor_count :=
      (ca_staff_roles.filter (fun r => r.role_id == 1005)).length
    let jc_count :=
      (ca_staff_roles.filter (fun r => r.role_id == 1006)).length
    if 1 ≤ counselor_count ∧ counselor_count ≤ 2 ∧
        1 ≤ jc_count ∧ jc_count ≤ 2 then t
    else if counselor_count ≠ 0 ∧ jc_count ≠ 0 then t
    else
      let needed_role : Nat := if counselor_count = 0 then 1005 else 1006
      let excess_role : Nat := if counselor_count = 0 then 1006 else 1005
      let dp := day_pattern day
      let day_assignments := t.filter
        (fun r => lowerString r.day_name == lowerString day)
      let other := day_assignments.filter (fun r => r.job_id ≠ some 1005)
      let swappable := other.filter
        (fun r => notProtected PROTECTED_JOB_IDS r.job_id)
      let swappable_ids := swappable.map (·.staff_id)
      let staff_with_needed_role := df_staff_clean.filter (fun r =>
        swappable_ids.contains r.staff_id ∧ r.role_id == needed_role ∧
        r.actual_assignment == dp)
      if staff_with_needed_role = [] then t
      else
        let best := bestMultiStaffCandidate swappable staff_with_needed_role
        let best_staff_id : Option Nat :=
          match best with
          | some sid => some sid
          | none => staff_with_needed_role.head?.map (·.staff_id)
        match best_staff_id with
        | none => t
        | some incoming_staff_id =>
          match swappable.find?
              (fun r => r.staff_id == incoming_staff_id) with
          | none => t
          | some incoming_staff_job =>
            let incoming_job_id := incoming_staff_job.job_id
            let ca_staff_to_swap := ca_staff_roles.filter
              (fun r => r.role_id == excess_role)
            match ca_staff_to_swap.head? with
            | none => t
            | some outgoing_staff =>
              t.map (fun r =>
                if lowerString r.day_name == lowerString day ∧
                    r.staff_id == incoming_staff_id then
                  { r with job_id := some 1005 }
                else if lowerString r.day_name == lowerString day ∧
                    r.staff_id == outgoing_staff.staff_id then
                  { r with job_id := incoming_job_id }
                else r)

/-- ensure_counselor_on_counselor_activity: repair the role mix of the
counselor-activity job (job 1005; the docstring's 1077 is stale) on every
day it appears, one bounded swap per day.  The catalog parameter of the
source is dropped: only job_code/job_name display fields are read from it. -/
def ensure_counselor_on_counselor_activity (df_all_assignments : List Assignment)
    (df_staff_clean : List Staff) : List Assignment :=
  let ca := df_all_assignments.filter (fun r => r.job_id == some 1005)
  if ca = [] then df_all_assignments
  else
    (uniqueKeepFirst (ca.map (·.day_name))).foldl
      (ensure_ca_day df_staff_clean) df_all_assignments

/-- Jobs staff may not be pulled from to top up Tie Dye
(Arts & Crafts, Card Trading, Counselor Activity, Staff Game). -/
def PROTECTED_FROM_TIE_DYE : List Nat := [1001, 1009, 1005, 1100]

/-- The staff the tie-dye repair pulls on one day: first pass only from
jobs holding >1 staff, second pass from any swappable job, both in staff
table order, stopping at the needed headcount. -/
def tieDyeStaffToAdd (swappable : List Assignment)
    (available_staff : List Staff) (staff_needed : Nat) : List Nat :=
  let first_pass := available_staff.foldl (fun acc st =>
    if acc.length ≥ staff_needed then acc
    else
      match swappable.find? (fun r => r.staff_id == st.staff_id) with
      | none => acc
      | some row =>
        if jobStaffCount swappable row.job_id > 1 then acc ++ [st.staff_id]
        else acc) []
  if first_pass.length < staff_needed then
    available_staff.foldl (fun acc st =>
      if acc.length ≥ staff_needed then acc
      else if acc.contains st.staff_id then acc
      else
        match swappable.find? (fun r => r.staff_id == st.staff_id) with
        | none => acc
        | some _ => acc ++ [st.staff_id]) first_pass
  else first_pass

/-- Reassign one pulled staff member onto Tie Dye for one day: update
their existing assignment row for the day, or (the defensive branch of the
source) append a fresh 'normal' row when none exists. -/
def td_update_one (day : String) (t' : List Assignment) (sid : Nat) :
    List Assignment :=
  if (t'.filter (fun r => r.day_name == day ∧ r.staff_id == sid)) ≠ [] then
    t'.map (fun r =>
      if r.day_name == day ∧ r.staff_id == sid then
        { r with job_id := some 1045 }
      else r)
  else
    t' ++ [{ day_name := day, staff_id := sid, job_id := some 1045,
             assignment_type := "normal" }]

/-- The day's assignments a tie-dye repair may pull from: same-day rows
whose job is neither protected nor Tie Dye itself (substitute NaN rows
pass the mask, as in pandas). -/
def td_swappable (t : List Assignment) (day : String) : List Assignment :=
  (t.filter (fun r => r.day_name == day)).filter (fun r =>
    notProtected PROTECTED_FROM_TIE_DYE r.job_id ∧ r.job_id ≠ some 1045)

/-- The staff ids locked for one day (exact day match). -/
def td_locked_ids (locked_staff_days : List (Nat × String))
    (day : String) : List Nat :=
  (locked_staff_days.filter (fun p => p.2 == day)).map (·.1)

/-- Staff the tie-dye repair may move on one day: on a swappable job that
day, holding the day's pattern, and not locked for the day. -/
def td_available_staff (t : List Assignment) (df_staff_clean : List Staff)
    (locked_staff_days : List (Nat × String)) (day : String) : List Staff :=
  df_staff_clean.filter (fun r =>
    ((td_swappable t day).map (·.staff_id)).contains r.staff_id ∧
    r.actual_assignment == day_pattern day ∧
    ¬ (td_locked_ids locked_staff_days day).contains r.staff_id)

/-- One day's repair step of ensure_minimum_tie_dye_staff: if the day has
fewer than 2 tie-dye staff, move same-pattern, non-locked staff from
swappable jobs on that day onto Tie Dye (job 1045).  Day comparisons here
are exact string matches, as in the source. -/
def ensure_td_day (df_staff_clean : List Staff)
    (locked_staff_days : List (Nat × String)) (t : List Assignment)
    (day : String) : List Assignment :=
  let day_tie_dye := t.filter
    (fun r => r.day_name == day ∧ r.job_id == some 1045)
  let current_count := day_tie_dye.length
  if current_count ≥ 2 then t
  else
    let staff_needed := 2 - current_count
    let swappable := td_swappable t day
    let available_staff :=
      td_available_staff t df_staff_clean locked_staff_days day
    if available_staff = [] then t
    else
      let staff_to_add := tieDyeStaffToAdd swappable available_staff staff_needed
      staff_to_add.foldl (td_update_one day) t

/-- The day list ensure_minimum_tie_dye_staff iterates: days of existing
tie-dye assignments, else config days matched (case-insensitively) against
the available day set; empty when neither source provides days. -/
def effective_tie_dye_days (t : List Assignment) (df_days : List String)
    (tie_dye_days_config : Option (List String)) : List String :=
  let td := t.filter (fun r => r.job_id == some 1045)
  if td = [] then
    match tie_dye_days_config with
    | some cfg =>
      if cfg = [] then []
      else cfg.filterMap (fun cd =>
        df_days.find? (fun ad => lowerString ad == lowerString cd))
    | none => []
  else uniqueKeepFirst (td.map (·.day_name))

/-- ensure_minimum_tie_dye_staff: guarantee at least 2 staff on Tie Dye on
each of its days, pulling same-pattern staff from non-protected jobs and
never touching locked (staff, day) pairs.  The catalog parameter is
dropped (display-only lookups). -/
def ensure_minimum_tie_dye_staff (df_all_assignments : List Assignment)
    (df_staff_clean : List Staff) (df_days : List String)
    (tie_dye_days_config : Option (List String))
    (locked_staff_days : List (Nat × String)) : List Assignment :=
  (effective_tie_dye_days df_all_assignments df_days
    tie_dye_days_config).foldl
    (ensure_td_day df_staff_clean locked_staff_days) df_all_assignments

/-- Jobs whose hardcoded staff make a counselor/JC unavailable for the
counselor-activity pre-assignment (Tie Dye, Arts & Crafts, Card Trading). -/
def PRE_ASSIGN_PROTECTED : List Nat := [1045, 1001, 1009]

/-- Counselors available for the counselor-activity pre-assignment on a
day: right role, day's pattern, not hardcoded that day and not on a
protected hardcoded job that day. -/
def availableForCA (df_staff_clean : List Staff) (df_hardcoded : List HardAssign)
    (role : Nat) (day : String) : List Staff :=
  let hardcoded_staff_ids := (df_hardcoded.filter
    (fun h => lowerString h.day_name == lowerString day)).map (·.staff_id)
  let protected_job_staff_ids := (df_hardcoded.filter (fun h =>
    lowerString h.day_name == lowerString day ∧
    PRE_ASSIGN_PROTECTED.contains h.job_id)).map (·.staff_id)
  df_staff_clean.filter (fun r =>
    r.role_id == role ∧ r.actual_assignment == day_pattern day ∧
    ¬ hardcoded_staff_ids.contains r.staff_id ∧
    ¬ protected_job_staff_ids.contains r.staff_id)

/-- One day of pre_assign_counselor_activity: unless counselor activity is
already hardcoded for the day, lock exactly 1 counselor and 1 JC (chosen
from the available pools; `sample(n=1)` modelled as the first row) onto
job 1005 with kind 'pre_assigned_locked', recording both (staff, day)
pairs in the locked set.  The staff-game skip happens in the caller. -/
def pre_assign_ca_day (df_staff_clean : List Staff)
    (df_hardcoded : List HardAssign) (day : String) :
    List Assignment × List (Nat × String) :=
  let day_hardcoded_ca := df_hardcoded.filter (fun h =>
    lowerString h.day_name == lowerString day ∧ h.job_id == 1005)
  if day_hardcoded_ca ≠ [] then ([], [])
  else
    let available_counselors := availableForCA df_staff_clean df_hardcoded 1005 day
    let available_jcs := availableForCA df_staff_clean df_hardcoded 1006 day
    match available_counselors.head?, available_jcs.head? with
    | some c, some jc =>
      ([{ day_name := day, staff_id := c.staff_id, job_id := some 1005,
          assignment_type := "pre_assigned_locked" },
        { day_name := day, staff_id := jc.staff_id, job_id := some 1005,
          assignment_type := "pre_assigned_locked" }],
       [(c.staff_id, day), (jc.staff_id, day)])
    | _, _ => ([], [])

/-- Staff-game days recorded in the hardcoded table (job 1100). -/
def staffGameDaysOf (df_hardcoded : List HardAssign) : List String :=
  uniqueKeepFirst
    ((df_hardcoded.filter (fun h => h.job_id == 1100)).map (·.day_name))

/-- pre_assign_counselor_activity: per non-staff-game day, lock 1 counselor
and 1 JC onto counselor activity; returns the assignments, the locked
(staff, day) set, and the staff-game day list.  The catalog row lookup for
job 1005 (display fields only) is omitted. -/
def pre_assign_counselor_activity (df_staff_clean : List Staff)
    (df_days : List String) (df_hardcoded : List HardAssign) :
    List Assignment × List (Nat × String) × List String :=
  let staff_game_days := staffGameDaysOf df_hardcoded
  let days := (uniqueKeepFirst df_days).filter
    (fun d => ¬ staff_game_days.contains d)
  (days.flatMap (fun d => (pre_assign_ca_day df_staff_clean df_hardcoded d).1),
   days.flatMap (fun d => (pre_assign_ca_day df_staff_clean df_hardcoded d).2),
   staff_game_days)

/-- Per-job assignment counter (the job_assignments dict). -/
def cntGet (counts : List (Nat × Nat)) (j : Nat) : Nat :=
  ((counts.find? (fun p => p.1 == j)).map (·.2)).getD 0

/-- Increment one job's assignment counter. -/
def cntBump (counts : List (Nat × Nat)) (j : Nat) : List (Nat × Nat) :=
  if counts.any (fun p => p.1 == j) then
    counts.map (fun p => if p.1 == j then (p.1, p.2 + 1) else p)
  else counts ++ [(j, 1)]

/-- Phase-1 inner loop: hand up to n staff from the shuffled pool to one
job, tagging them 'normal'; iterations with the pool exhausted assign
nothing, exactly as the `if staff_idx < len(day_staff)` guard does. -/
def phase1_assign_n (day_staff : List Staff) (day : String) (j : Job) :
    Nat → List Assignment × List (Nat × Nat) × Nat →
    List Assignment × List (Nat × Nat) × Nat
  | 0, st => st
  | n + 1, (acc, counts, idx) =>
    if h : idx < day_staff.length then
      phase1_assign_n day_staff day j n
        (acc ++ [{ day_name := day,
                   staff_id := (day_staff.get ⟨idx, h⟩).staff_id,
                   job_id := some j.job_id, assignment_type := "normal" }],
         cntBump counts j.job_id, idx + 1)
    else phase1_assign_n day_staff day j n (acc, counts, idx)

/-- Stable insertion into a list of jobs sorted by priority ascending. -/
def insertByPrioAsc (j : Job) : List Job → List Job
  | [] => [j]
  | h :: t =>
    if h.priority.getD 0 ≤ j.priority.getD 0 then h :: insertByPrioAsc j t
    else j :: h :: t

/-- overflow_jobs.sort_values('priority'): stable ascending sort. -/
def sortByPrioAsc : List Job → List Job
  | [] => []
  | j :: t => insertByPrioAsc j (sortByPrioAsc t)

/-- One job's turn inside an overflow round: if the pool still has staff
and the job is below max_staff_assigned, hand it the next staff member
tagged 'overflow'. -/
def overflow_step (day_staff : List Staff) (day : String)
    (s : List Assignment × List (Nat × Nat) × Nat) (j : Job) :
    List Assignment × List (Nat × Nat) × Nat :=
  let acc := s.1
  let counts := s.2.1
  let idx := s.2.2
  if h : idx < day_staff.length then
    if cntGet counts j.job_id < j.max_staff_assigned.getD 0 then
      (acc ++ [{ day_name := day,
                 staff_id := (day_staff.get ⟨idx, h⟩).staff_id,
                 job_id := some j.job_id, assignment_type := "overflow" }],
       cntBump counts j.job_id, idx + 1)
    else s
  else s

/-- The overflow while-loop: cycle through the priority-sorted jobs one
staff per job per round; when a full round assigns nobody
(assigned_this_round stays False, equivalently staff_idx did not advance,
since every step either keeps or increments it), the remaining pool
becomes substitutes (job NaN, kind 'substitute').  The fuel argument is a
round budget: every recursing round strictly advances staff_idx, which is
bounded by the pool size, so any fuel above the pool size makes the
recursion structurally total without changing its value; callers pass
day_staff.length + 1. -/
def overflow_loop (day_staff : List Staff) (day : String)
    (overflow_jobs : List Job) :
    Nat → List Assignment → List (Nat × Nat) → Nat → List Assignment × Nat
  | 0, acc, _, idx => (acc, idx)
  | fuel + 1, acc, counts, idx =>
    if idx < day_staff.length then
      match overflow_jobs.foldl (overflow_step day_staff day)
        (acc, counts, idx) with
      | (acc1, counts1, idx1) =>
        if idx < idx1 then
          overflow_loop day_staff day overflow_jobs fuel acc1 counts1 idx1
        else
          (acc1 ++ (day_staff.drop idx1).map (fun st =>
            { day_name := day, staff_id := st.staff_id, job_id := none,
              assignment_type := "substitute" }), day_staff.length)
    else (acc, idx)

/-- Substitute rows for the remaining pool (the no-overflow-jobs branch). -/
def substitutesFrom (day_staff : List Staff) (day : String) (idx : Nat) :
    List Assignment :=
  (day_staff.drop idx).map (fun st =>
    { day_name := day, staff_id := st.staff_id, job_id := none,
      assignment_type := "substitute" })

/-- Special jobs excluded from random fill unless hardcoded that day:
Staff Game, Tie Dye, Obstacle Course, Tallying Scores. -/
def CONDITIONALLY_EXCLUDED_JOB_IDS : List Nat := [1100, 1045, 1013, 1041]

/-- One non-staff-game day of assign_random_lunch_jobs: normal fill in
catalog order, then priority-ordered overflow, then substitutes. -/
def assign_day (df_staff_clean : List Staff) (df_lunch_jobs : List Job)
    (df_hardcoded : List HardAssign) (ca_assignments : List Assignment)
    (day : String) : List Assignment :=
  let day_hardcoded := df_hardcoded.filter (fun h => h.day_name == day)
  let day_ca := ca_assignments.filter (fun a => a.day_name == day)
  let assigned_job_ids := day_hardcoded.map (·.job_id)
  let assigned_staff_ids :=
    day_hardcoded.map (·.staff_id) ++ day_ca.map (·.staff_id)
  let jobs_to_exclude := CONDITIONALLY_EXCLUDED_JOB_IDS.filter
    (fun j => ¬ assigned_job_ids.contains j)
  let remaining_jobs0 := df_lunch_jobs.filter (fun j =>
    ¬ (assigned_job_ids ++ jobs_to_exclude).contains j.job_id)
  let ca_pre_assigned_count := day_ca.length
  let remaining_jobs1 :=
    if ca_pre_assigned_count > 0 ∧
        remaining_jobs0.any (fun j => j.job_id == 1005) then
      remaining_jobs0.map (fun j =>
        if j.job_id == 1005 then
          { j with normal_staff_assigned :=
              match j.normal_staff_assigned with
              | some n => some (n - ca_pre_assigned_count)
              | none => none }
        else j)
    else remaining_jobs0
  let remaining_staff := df_staff_clean.filter
    (fun r => ¬ assigned_staff_ids.contains r.staff_id)
  let dp := day_pattern day
  let day_staff := remaining_staff.filter (fun r => r.actual_assignment == dp)
  let remaining_jobs :=
    if remaining_jobs1 = [] ∧ day_staff ≠ [] then
      df_lunch_jobs.filter (fun j => ¬ jobs_to_exclude.contains j.job_id)
    else remaining_jobs1
  let counts0 : List (Nat × Nat) := remaining_jobs.map (fun j => (j.job_id, 0))
  let p1 := remaining_jobs.foldl (fun st j =>
    phase1_assign_n day_staff day j (j.normal_staff_assigned.getD 1) st)
    ([], counts0, 0)
  let acc1 := p1.1
  let counts1 := p1.2.1
  let idx1 := p1.2.2
  if idx1 < day_staff.length then
    let overflow_jobs := sortByPrioAsc (remaining_jobs.filter (fun j =>
      j.priority.isSome ∧ j.max_staff_assigned.isSome))
    if overflow_jobs ≠ [] then
      (overflow_loop day_staff day overflow_jobs (day_staff.length + 1)
        acc1 counts1 idx1).1
    else acc1 ++ substitutesFrom day_staff day idx1
  else acc1

/-- assign_random_lunch_jobs: pre-assign the locked counselor-activity
pair, fill every non-staff-game day (the pool shuffle is modelled as the
identity permutation), prepend the hardcoded rows tagged 'hardcoded', and
run the tie-dye minimum-headcount validator with the locked set.
The pattern-based-jobs coverage validator and the counselor-activity
role-mix validator are skipped by this revision of the source. -/
def assign_random_lunch_jobs (df_staff_clean : List Staff)
    (df_days : List String) (df_lunch_jobs : List Job)
    (df_hardcoded : List HardAssign)
    (tie_dye_days : Option (List String)) : List Assignment :=
  let pre := pre_assign_counselor_activity df_staff_clean df_days df_hardcoded
  let ca_assignments := pre.1
  let locked_staff_days := pre.2.1
  let staff_game_days := pre.2.2
  let per_day := (uniqueKeepFirst df_days).flatMap (fun d =>
    if staff_game_days.contains d then []
    else assign_day df_staff_clean df_lunch_jobs df_hardcoded ca_assignments d)
  let df_all :=
    df_hardcoded.map (fun h =>
      { day_name := h.day_name, staff_id := h.staff_id,
        job_id := some h.job_id, assignment_type := "hardcoded" }) ++
    ca_assignments ++ per_day
  ensure_minimum_tie_dye_staff df_all df_staff_clean df_days tie_dye_days
    locked_staff_days

/-- Group-level exception flag: a group is an exception exactly when its
(counselors, junior counselors) composition is (1,2) or (1,1). -/
def group_pattern_exception (roster : List StaffRow) (gid : Nat) : Bool :=
  let c := (roster.filter
    (fun r => r.group_id == gid ∧ r.role_id == 1005)).length
  let jc := (roster.filter
    (fun r => r.group_id == gid ∧ r.role_id == 1006)).length
  (c == 1 ∧ jc == 2) ∨ (c == 1 ∧ jc == 1)

/-- assign_group_patterns: alternate base patterns A/B across the sorted
distinct group ids; the random starting label is the parameter. -/
def assign_group_patterns (roster : List StaffRow) (start : Pattern) :
    List (Nat × Pattern) :=
  (sortedDedup (roster.map (·.group_id))).enum.map (fun p =>
    (p.2, if p.1 % 2 == 0 then start else start.flip))

/-- The dirty staff table of the single-week path: base pattern merged per
group, counselors keep it, junior counselors get the flip, and the
group-level pattern_exception flag merged on. -/
def df_eligible_staff_dirty (roster : List StaffRow) (start : Pattern) :
    List Staff :=
  let gp := assign_group_patterns roster start
  roster.map (fun r =>
    let base := (((gp.find? (fun q => q.1 == r.group_id)).map (·.2)).getD start)
    { staff_id := r.staff_id, role_id := r.role_id, group_id := r.group_id,
      actual_assignment := if r.role_id == 1005 then base else base.flip,
      pattern_exception := group_pattern_exception roster r.group_id })

/-- The rows handed to the even-split randomisation, mirroring
`df_eligible_staff_only_exceptions = df_dirty[~df_dirty['pattern_exception']]`
followed by `df_exceptions = df_eligible_staff_only_exceptions.copy()`.
Note the mask: the selected rows are those whose flag is False. -/
def randomized_rows (dirty : List Staff) : List Staff :=
  dirty.filter (fun r => ¬ r.pattern_exception)

/-- The rows held aside from the randomisation, mirroring
`df_eligible_staff_without_exceptions = df_dirty[df_dirty['pattern_exception']]`. -/
def held_out_rows (dirty : List Staff) : List Staff :=
  dirty.filter (fun r => r.pattern_exception)

/-- The even A/B split applied per group to the selected rows: shuffle
(modelled as identity), send the first ⌈n/2⌉ or ⌊n/2⌋ ids to A — the odd
tie broken by the coin parameter — and the rest to B. -/
def exception_split (rows : List Staff) (coin : Nat → Pattern) : List Staff :=
  rows.enum.map (fun p =>
    let r := p.2
    let before := ((rows.take p.1).filter
      (fun x => x.group_id == r.group_id)).length
    let n := (rows.filter (fun x => x.group_id == r.group_id)).length
    let nA := n / 2 + (if n % 2 == 1 ∧ coin r.group_id = Pattern.A then 1 else 0)
    { r with actual_assignment := if before < nA then .A else .B })

/-- The clean staff table: held-out rows keep their deterministic pattern,
selected rows take the split result, restored to the original row order. -/
def df_eligible_staff_clean (dirty : List Staff) (coin : Nat → Pattern) :
    List Staff :=
  let exc := exception_split (randomized_rows dirty) coin
  dirty.map (fun r =>
    if r.pattern_exception then r
    else ((exc.filter (fun x => x.staff_id == r.staff_id)).head?).getD r)

/-- One week's override configuration (the week_N JSON block). -/
structure WeekConfig where
  pattern_based_jobs : List (Nat × List Nat)
  staff_game_days : List String
  tie_dye_days : List String
  tie_dye_staff : List Nat
  staff_to_remove : List Nat
  staff_to_add : List NewStaff
  custom_job_assignments : Option CustomJobAssignments
deriving Repr

/-- Global pattern map lookup. -/
def lookupAssign (m : List (Nat × Pattern)) (sid : Nat) : Option Pattern :=
  (m.find? (fun p => p.1 == sid)).map (·.2)

/-- Global pattern map update. -/
def setAssign (m : List (Nat × Pattern)) (sid : Nat) (p : Pattern) :
    List (Nat × Pattern) :=
  m.map (fun q => if q.1 == sid then (q.1, p) else q)

/-- Stable insertion into a (gid, size) list sorted by size descending. -/
def insertBySizeDesc (g : Nat × Nat) : List (Nat × Nat) → List (Nat × Nat)
  | [] => [g]
  | h :: t => if h.2 ≥ g.2 then h :: insertBySizeDesc g t else g :: h :: t

/-- Stable sort of (gid, size) pairs by size descending (the
value_counts + sorted(.., reverse=True) combination; ties keep first-seen
group order). -/
def sortBySizeDesc : List (Nat × Nat) → List (Nat × Nat)
  | [] => []
  | g :: t => insertBySizeDesc g (sortBySizeDesc t)

/-- Phase 3 of the global balancing for one role: using role counts taken
before any phase-3 swap, if the role's skew exceeds 3 and enough flexible
staff of that role sit on the larger pattern, move ⌊skew/2⌋ of them. -/
def global_role_rebalance (df_flexible : List StaffRow)
    (counts : Nat → Pattern → Nat) (m : List (Nat × Pattern))
    (role : Nat) : List (Nat × Pattern) :=
  let count_a := counts role .A
  let count_b := counts role .B
  if ((count_a : Int) - count_b).natAbs > 3 then
    let larger : Pattern := if count_a > count_b then .A else .B
    let smaller : Pattern := if count_a > count_b then .B else .A
    let swappable := df_flexible.filter (fun r =>
      r.role_id == role ∧ lookupAssign m r.staff_id == some larger)
    let num := ((count_a : Int) - count_b).natAbs / 2
    if swappable.length ≥ num then
      (swappable.take num).foldl
        (fun acc r => setAssign acc r.staff_id smaller) m
    else m
  else m

/-- balance_staff_patterns_across_weeks: one global staff→pattern map for
the whole session.  Phase 1 alternates hardcoded staff onto the smaller
side; phase 2 places each flexible group (largest first) wholly on the
smaller side; phase 3 repairs a role skew above 3 with individual swaps. -/
def balance_staff_patterns_across_weeks (configs : List WeekConfig)
    (df_all_staff : List StaffRow) : List (Nat × Pattern) :=
  let hardcoded_staff_ids := configs.flatMap (fun c =>
    c.pattern_based_jobs.flatMap (·.2) ++ c.tie_dye_staff)
  let df_hardcoded := df_all_staff.filter
    (fun r => hardcoded_staff_ids.contains r.staff_id)
  let df_flexible := df_all_staff.filter
    (fun r => ¬ hardcoded_staff_ids.contains r.staff_id)
  let phase1 := df_hardcoded.foldl (fun st r =>
    let m := st.1
    let ca := st.2.1
    let cb := st.2.2
    if ca ≤ cb then (m ++ [(r.staff_id, Pattern.A)], ca + 1, cb)
    else (m ++ [(r.staff_id, Pattern.B)], ca, cb + 1))
    (([] : List (Nat × Pattern)), 0, 0)
  let gsizes := (dedupKeepFirstNat (df_flexible.map (·.group_id))).map
    (fun gid => (gid, (df_flexible.filter
      (fun r => r.group_id == gid)).length))
  let phase2 := (sortBySizeDesc gsizes).foldl (fun st g =>
    let m := st.1
    let ca := st.2.1
    let cb := st.2.2
    let group_staff := df_flexible.filter (fun r => r.group_id == g.1)
    if ca ≤ cb then
      (m ++ group_staff.map (fun r => (r.staff_id, Pattern.A)),
       ca + group_staff.length, cb)
    else
      (m ++ group_staff.map (fun r => (r.staff_id, Pattern.B)),
       ca, cb + group_staff.length)) phase1
  let m0 := phase2.1
  let counts : Nat → Pattern → Nat := fun role p =>
    (df_all_staff.filter (fun r =>
      r.role_id == role ∧ lookupAssign m0 r.staff_id == some p)).length
  global_role_rebalance df_flexible counts
    (global_role_rebalance df_flexible counts m0 1005) 1006

/-- One week of build_lunch_job_assignments on the precomputed-patterns
path of the Core revision: patterns from the global map (group fallback
for ids outside it), the exception randomisation skipped, coverage
validation before and after the override processor, the per-week balance
passes skipped, then the greedy filler; each output row is enriched with
the staff member's final actual_assignment by a left merge on staff_id. -/
def build_week_enriched (roster : List StaffRow) (df_lunch_jobs : List Job)
    (df_days : List String) (precomputed : List (Nat × Pattern))
    (start : Pattern) (cfg : WeekConfig) :
    List (Assignment × Option Pattern) :=
  let gp := assign_group_patterns roster start
  let dirty : List Staff := roster.map (fun r =>
    let base := (((gp.find? (fun q => q.1 == r.group_id)).map (·.2)).getD start)
    { staff_id := r.staff_id, role_id := r.role_id, group_id := r.group_id,
      actual_assignment :=
        match lookupAssign precomputed r.staff_id with
        | some p => p
        | none => if r.role_id == 1005 then base else base.flip,
      pattern_exception := group_pattern_exception roster r.group_id })
  let clean := validate_and_fix_group_pattern_coverage dirty
  let ph := process_hardcoded_assignments cfg.pattern_based_jobs
    cfg.staff_game_days cfg.tie_dye_days cfg.tie_dye_staff clean df_days
    cfg.staff_to_remove cfg.staff_to_add cfg.custom_job_assignments
  let df_hardcoded := ph.1
  let balanced := validate_and_fix_group_pattern_coverage ph.2
  let final := assign_random_lunch_jobs balanced df_days df_lunch_jobs
    df_hardcoded (some cfg.tie_dye_days)
  final.map (fun a => (a, lookupPattern balanced a.staff_id))

/-- build_multi_week_schedule (configuration loading and export aside):
compute the global pattern map once, then run every week's pipeline with
it and collect the enriched weekly outputs. -/
def build_multi_week_schedule (roster : List StaffRow)
    (df_lunch_jobs : List Job) (df_days : List String) (start : Pattern)
    (configs : List WeekConfig) : List (List (Assignment × Option Pattern)) :=
  let overall := balance_staff_patterns_across_weeks configs roster
  configs.map (build_week_enriched roster df_lunch_jobs df_days overall start)

/-- Rows of one day of an assignment table. -/
def dayRows (t : List Assignment) (d : String) : List Assignment :=
  t.filter (fun a => a.day_name == d)

/-- Rows of one (staff, day) pair of an assignment table. -/
def rowsFor (t : List Assignment) (sid : Nat) (d : String) :
    List Assignment :=
  t.filter (fun a => a.staff_id == sid ∧ a.day_name == d)

/-- The staff member holds a tie-dye assignment on the day. -/
def hasTD (t : List Assignment) (s : Nat) (d : String) : Prop :=
  ∃ a ∈ t, a.day_name = d ∧ a.staff_id = s ∧ a.job_id = some 1045

/-- Every day the counselor-activity validator will visit already has at
least one counselor and one junior counselor among its assignees (or no
assignees at all): the condition under which its repair pass is a no-op. -/
def ca_mix_ok (t : List Assignment) (df_staff_clean : List Staff) : Bool :=
  (uniqueKeepFirst ((t.filter
      (fun r => r.job_id == some 1005)).map (·.day_name))).all (fun d =>
    ca_day_staff_ids t d = [] ∨
      (1 ≤ ((ca_day_staff_roles t df_staff_clean d).filter
        (fun r => r.role_id == 1005)).length ∧
       1 ≤ ((ca_day_staff_roles t df_staff_clean d).filter
        (fun r => r.role_id == 1006)).length))

/-- Every day the tie-dye validator will visit already has at least 2
tie-dye staff: the condition under which its repair pass is a no-op. -/
def td_min_ok (t : List Assignment) (df_days : List String)
    (tie_dye_days_config : Option (List String)) : Bool :=
  (effective_tie_dye_days t df_days tie_dye_days_config).all (fun d =>
    2 ≤ (t.filter
      (fun r => r.day_name == d ∧ r.job_id == some 1045)).length)

/-! ### Concrete tables used by the per-claim scenario theorems -/

/-- C1 roster: group 1 has composition (1 counselor, 1 JC) — flagged an
exception; group 2 has (2, 2) — not flagged. -/
def c1_roster : List StaffRow :=
  [⟨1, 1005, 1⟩, ⟨2, 1006, 1⟩, ⟨3, 1005, 2⟩, ⟨4, 1005, 2⟩,
   ⟨5, 1006, 2⟩, ⟨6, 1006, 2⟩]

/-- C2 roster: three groups of one counselor + one JC each. -/
def c2_roster : List StaffRow :=
  [⟨1, 1005, 1⟩, ⟨2, 1006, 1⟩, ⟨3, 1005, 2⟩, ⟨4, 1006, 2⟩,
   ⟨5, 1005, 3⟩, ⟨6, 1006, 3⟩]

/-- C2 catalog: Arts & Crafts (1001), Counselor Activity (1005) and a
generic duty (2001). -/
def c2_jobs : List Job :=
  [⟨1001, some 2, some 2, some 4, some 2⟩,
   ⟨1005, some 2, some 3, some 5, some 1⟩,
   ⟨2001, some 1, some 3, some 5, some 1⟩]

/-- The four recurring weekdays the pipeline always loads. -/
def four_days : List String := ["monday", "tuesday", "wednesday", "thursday"]

/-- C2 week 1: Arts & Crafts pinned to staff 1 and 5, tie-dye staff 3
(making all three pinned in the global pre-pass). -/
def c2_cfg1 : WeekConfig := ⟨[(1001, [1, 5])], [], [], [3], [], [], none⟩

/-- C2 week 2: no overrides at all. -/
def c2_cfg2 : WeekConfig := ⟨[], [], [], [], [], [], none⟩

/-- C2 two-week session output. -/
def c2_weeks : List (List (Assignment × Option Pattern)) :=
  build_multi_week_schedule c2_roster c2_jobs four_days .A [c2_cfg1, c2_cfg2]

/-- C3 table: group 1 holds four A staff, group 2 three A staff, group 3
three B staff; nobody pinned. -/
def c3_df : List Staff :=
  [⟨1, 1005, 1, .A, false⟩, ⟨2, 1005, 1, .A, false⟩,
   ⟨3, 1005, 1, .A, false⟩, ⟨4, 1005, 1, .A, false⟩,
   ⟨5, 1005, 2, .A, false⟩, ⟨6, 1005, 2, .A, false⟩,
   ⟨7, 1005, 2, .A, false⟩,
   ⟨8, 1005, 3, .B, false⟩, ⟨9, 1005, 3, .B, false⟩,
   ⟨10, 1005, 3, .B, false⟩]

/-- C4 catalog: the scenario's single duty with minRequired 2,
normalTarget 3, maxAllowed 5, priority 1. -/
def c4_jobs : List Job := [⟨2001, some 2, some 3, some 5, some 1⟩]

/-- C4 pool: six pattern-A staff (all JCs, so the counselor-activity
pre-assignment finds no counselor and stays empty). -/
def c4_staff : List Staff :=
  [⟨1, 1006, 1, .A, false⟩, ⟨2, 1006, 1, .A, false⟩,
   ⟨3, 1006, 2, .A, false⟩, ⟨4, 1006, 2, .A, false⟩,
   ⟨5, 1006, 3, .A, false⟩, ⟨6, 1006, 3, .A, false⟩]

/-- C4 output of the filler on the single-day, single-duty scenario. -/
def c4_out : List Assignment :=
  assign_random_lunch_jobs c4_staff ["monday"] c4_jobs [] none

/-- C5 staff: staff 1 matches monday (pattern A); staff 2, 3, 4 match
tuesday (pattern B); distinct groups. -/
def c5_staff : List Staff :=
  [⟨1, 1005, 1, .A, false⟩, ⟨2, 1005, 2, .B, false⟩,
   ⟨3, 1005, 3, .B, false⟩, ⟨4, 1005, 4, .B, false⟩,
   ⟨5, 1006, 1, .B, false⟩, ⟨6, 1006, 2, .A, false⟩,
   ⟨7, 1006, 3, .A, false⟩, ⟨8, 1006, 4, .A, false⟩]

/-- C5 override-processor run: tie dye on monday and tuesday with the four
tie-dye staff, no other overrides. -/
def c5_out : List HardAssign × List Staff :=
  process_hardcoded_assignments [] [] ["monday", "tuesday"] [1, 2, 3, 4]
    c5_staff four_days [] [] none

/-- C6/C8 sample staff table for witnesses. -/
def c6_df : List Staff :=
  [⟨7, 1005, 1, .A, false⟩, ⟨8, 1006, 1, .A, false⟩,
   ⟨9, 1005, 2, .B, false⟩, ⟨10, 1006, 2, .B, false⟩,
   ⟨11, 1005, 3, .A, false⟩, ⟨12, 1006, 3, .A, false⟩]

/-- C7 table: staff 1 and 2 share group 10 and pattern A. -/
def c7_df : List Staff :=
  [⟨1, 1005, 10, .A, false⟩, ⟨2, 1006, 10, .A, false⟩]

/-- C7 witness table: staff 1 and 2 hold the same pattern but sit in
different groups (2's group also contains staff 3). -/
def c7_df2 : List Staff :=
  [⟨1, 1005, 10, .A, false⟩, ⟨2, 1006, 20, .A, false⟩,
   ⟨3, 1005, 20, .B, false⟩]

/-- C8 assignment table: monday's counselor activity is staffed by a
single JC (staff 1); a counselor (2) and a JC (3) share job 2000. -/
def c8_t : List Assignment :=
  [⟨"monday", 1, some 1005, "hardcoded"⟩,
   ⟨"monday", 2, some 2000, "normal"⟩,
   ⟨"monday", 3, some 2000, "normal"⟩]

/-- C8 staff table: 1 and 3 are JCs, 2 is a counselor, all pattern A. -/
def c8_staff : List Staff :=
  [⟨1, 1006, 1, .A, false⟩, ⟨2, 1005, 2, .A, false⟩,
   ⟨3, 1006, 3, .A, false⟩]

/-- C8 witness table already satisfying both validator invariants:
counselor activity holds one counselor and one JC, tie dye holds two. -/
def c8_ok_t : List Assignment :=
  [⟨"monday", 2, some 1005, "normal"⟩, ⟨"monday", 1, some 1005, "normal"⟩,
   ⟨"monday", 3, some 1045, "hardcoded"⟩,
   ⟨"monday", 4, some 1045, "hardcoded"⟩]

/-- C9/C10 witness staff table. -/
def c9_staff : List Staff :=
  [⟨1, 1005, 1, .A, false⟩, ⟨2, 1006, 1, .A, false⟩,
   ⟨3, 1005, 2, .A, false⟩, ⟨4, 1006, 2, .A, false⟩]

/-- C9 witness assignment table: monday tie dye is short (one staff) and
staff 3 and 4 sit on swappable job 2000; staff 3 is locked for monday. -/
def c9_t : List Assignment :=
  [⟨"monday", 1, some 1045, "hardcoded"⟩,
   ⟨"monday", 3, some 2000, "normal"⟩,
   ⟨"monday", 4, some 2000, "normal"⟩]

/-- C10 witness hardcoded table: staff game on thursday, staff 4 hardcoded
to tie dye on monday. -/
def c10_hardcoded : List HardAssign :=
  [⟨"thursday", 1, 1100⟩, ⟨"monday", 4, 1045⟩]

/-- The source condition of a tie-dye pull: the staff member held a
same-day assignment on a non-protected, non-tie-dye job, and their staff
row carries the day's pattern. -/
def pulled_ok (t : List Assignment) (staff : List Staff) (s : Nat)
    (d : String) : Prop :=
  (∃ a ∈ t, a.day_name = d ∧ a.staff_id = s ∧
    notProtected PROTECTED_FROM_TIE_DYE a.job_id = true ∧
    a.job_id ≠ some 1045) ∧
  (∃ st ∈ staff, st.staff_id = s ∧ st.actual_assignment = day_pattern d)

/-! ### Theorems -/

/-- C1.  On a roster whose group 1 is flagged an exception (composition
1 counselor + 1 JC) and whose group 2 is not (2 + 2), the rows handed to
the even-split randomisation are exactly the NON-flagged rows (staff
3,4,5,6) while the flagged rows (staff 1,2) keep the deterministic
role-flip pattern: the mask `~pattern_exception` inverts the documented
selection, so the randomized set is the complement of the flagged set. -/
theorem c1_exception_randomization_inverted :
    ((randomized_rows (df_eligible_staff_dirty c1_roster .A)).map
      (·.staff_id) = [3, 4, 5, 6]) ∧
    ((held_out_rows (df_eligible_staff_dirty c1_roster .A)).map
      (·.staff_id) = [1, 2]) ∧
    ((df_eligible_staff_dirty c1_roster .A).filter
      (fun r => r.pattern_exception)).map (·.staff_id) ≠
      (randomized_rows (df_eligible_staff_dirty c1_roster .A)).map
        (·.staff_id) := by
  refine ⟨by decide, by decide, by decide⟩

/-- C2.  In a two-week session where week 1 pins staff 1 and 5 to a
paired duty (and their global patterns coincide) while week 2 has no
overrides, staff 5's pattern recorded in the enriched output is B in
every week-1 row and A in every week-2 row: the override processor's
group flip changes a pattern in one week only, so a staff member's
recorded pattern is NOT the same in every week. -/
theorem c2_week_patterns_differ :
    c2_weeks.map (fun w =>
      (w.filter (fun p => p.1.staff_id == 5)).map (·.2)) =
    [[some .B, some .B], [some .A, some .A]] := by
  decide

/-- C3 counterexample.  On a table with no pinned staff at all (so every
group is flippable), initial skew 4, the pass flips group 1 (net 4,
accepted by the equal-difference rule) and then group 2 (net 3, judged
against the stale tracked difference), ending at skew 10 — not ≤ 2. -/
theorem c3_counterexample :
    skew c3_df = 4 ∧
    (c3_df.all (fun r => !(([] : List Nat).contains r.staff_id))) = true ∧
    skew (balance_pattern_distribution c3_df []) = 10 := by
  refine ⟨by decide, by decide, by decide⟩

/-- C4 counterexample.  On the scenario catalog (minRequired 2,
normalTarget 3, maxAllowed 5, priority 1) with six same-pattern staff,
the filler's first phase hands the duty 3 staff tagged 'normal' — there
is no minimum phase assigning 2 first, and no other phase tag exists
besides normal/overflow/substitute. -/
theorem c4_counterexample :
    ((c4_out.filter (fun a => a.assignment_type == "normal")).length = 3) ∧
    (c4_jobs.map (·.min_staff_assigned) = [some 2]) ∧
    (c4_out.all (fun a => a.assignment_type == "normal" ∨
      a.assignment_type == "overflow" ∨
      a.assignment_type == "substitute")) = true := by
  refine ⟨by decide, by decide, by decide⟩

/-- C4 amended.  The filler has no minimum phase: its first phase fills
the duty straight to normalTarget (3 staff, tagged 'normal'), the
priority-overflow phase adds 2 more up to maxAllowed 5, and the sixth
staff member becomes a substitute with no duty. -/
theorem c4_amended :
    c4_out =
      [⟨"monday", 1, some 2001, "normal"⟩,
       ⟨"monday", 2, some 2001, "normal"⟩,
       ⟨"monday", 3, some 2001, "normal"⟩,
       ⟨"monday", 4, some 2001, "overflow"⟩,
       ⟨"monday", 5, some 2001, "overflow"⟩,
       ⟨"monday", 6, none, "substitute"⟩] := by
  decide

/-- C5 counterexample.  With tie dye on monday/tuesday, 1 eligible staff
member on monday and 3 on tuesday, the minimum-headcount logic leaves
tuesday at 3 staff (not 2) and returns the staff table unchanged — no
group pattern is flipped. -/
theorem c5_counterexample :
    ((c5_out.1.filter (fun a => a.day_name == "tuesday")).length = 3) ∧
    c5_out.2 = c5_staff := by
  refine ⟨by decide, by decide⟩

/-- C5 amended.  The minimum-headcount logic ADDS the first tuesday staff
member (staff 2) to monday so they work BOTH tie-dye days: monday ends
with staff 1 and 2, tuesday keeps staff 2, 3 and 4, every produced row is
a tie-dye row, and no pattern (hence no group) changes. -/
theorem c5_amended :
    ((c5_out.1.filter (fun a => a.day_name == "monday")).map
      (·.staff_id) = [1, 2]) ∧
    ((c5_out.1.filter (fun a => a.day_name == "tuesday")).map
      (·.staff_id) = [2, 3, 4]) ∧
    (c5_out.1.all (fun a => a.job_id == 1045)) = true ∧
    c5_out.2 = c5_staff := by
  refine ⟨by decide, by decide, by decide, by decide⟩

/-- C7 counterexample.  When the two pinned staff share one group (staff
1 and 2, both group 10, both pattern A), the processor flips the entire
group — including the first staff member — so after the flip both still
hold the same pattern (B), not opposite ones. -/
theorem c7_counterexample :
    lookupPattern (balance_schedule_for_job c7_df [1, 2]) 1 = some .B ∧
    lookupPattern (balance_schedule_for_job c7_df [1, 2]) 2 = some .B := by
  refine ⟨by decide, by decide⟩

/-- C8 counterexample.  Monday's counselor activity is staffed by a
single JC; the first repair swaps that JC out for the counselor on job
2000, leaving zero JCs, and the second run swaps in the opposite
direction: running the validator twice does NOT reproduce the first
run's output. -/
theorem c8_counterexample :
    ensure_counselor_on_counselor_activity
      (ensure_counselor_on_counselor_activity c8_t c8_staff) c8_staff ≠
    ensure_counselor_on_counselor_activity c8_t c8_staff := by
  decide

/-- A map commutes with a filter its function cannot affect. -/
theorem filter_map_comm {α : Type} (f : α → α) (p : α → Bool)
    (hp : ∀ r, p (f r) = p r) (l : List α) :
    (l.map f).filter p = (l.filter p).map f := by
  induction l with
  | nil => rfl
  | cons a t ih =>
    simp only [List.map_cons, List.filter_cons, hp]
    cases h : p a <;> simp [h, ih]

/-- Mapping a function that fixes every element of a list is the identity. -/
theorem map_fix_id {α : Type} (f : α → α) (l : List α)
    (h : ∀ r ∈ l, f r = r) : l.map f = l := by
  induction l with
  | nil => rfl
  | cons a t ih =>
    simp only [List.map_cons]
    rw [h a (by simp), ih (fun r hr => h r (by simp [hr]))]

/-- A filter is unchanged by a map that fixes every row the filter keeps
and cannot change the filter's verdict. -/
theorem filter_map_fix {α : Type} (f : α → α) (p : α → Bool)
    (hp : ∀ r, p (f r) = p r) (hfix : ∀ r, p r = true → f r = r)
    (l : List α) : (l.map f).filter p = l.filter p := by
  rw [filter_map_comm f p hp]
  exact map_fix_id f (l.filter p)
    (fun r hr => hfix r (List.of_mem_filter hr))

/-- C3 amended.  When the global skew is already within tolerance (≤ 2)
the balance pass returns the table unchanged; beyond that the single
ranked pass only promises that each accepted flip does not grow its
internally tracked difference, and the c3 counterexample shows the true
final skew can still exceed 2 — even exceed the initial skew — while a
fully non-pinned group exists. -/
theorem balance_pattern_distribution_skew_le_two_id (df : List Staff)
    (pinned : List Nat) (h : skew df ≤ 2) :
    balance_pattern_distribution df pinned = df := by
  unfold balance_pattern_distribution
  simp only [skew] at h
  rw [if_pos h]

/-- C3 amended witness at a concrete balanced table. -/
theorem balance_pattern_distribution_skew_le_two_id_witness :
    balance_pattern_distribution c6_df [7] = c6_df :=
  balance_pattern_distribution_skew_le_two_id c6_df [7] (by decide)

/-- C7 amended.  When the first two pinned staff of a paired duty hold the
same pattern but sit in DIFFERENT groups, the processor flips exactly the
second matching row's whole group, leaving the first staff member's
pattern alone, so the two end on opposite patterns (staff ids assumed
unique, expressed through the singleton-filter hypotheses). -/
theorem balance_schedule_for_job_opposite (df : List Staff) (x y : Nat)
    (rx ry : Staff)
    (hsub : df.filter (fun r => (([x, y].take 2).contains r.staff_id)) =
      [rx, ry])
    (hux : df.filter (fun r => r.staff_id == x) = [rx])
    (huy : df.filter (fun r => r.staff_id == y) = [ry])
    (hsame : rx.actual_assignment = ry.actual_assignment)
    (hgrp : rx.group_id ≠ ry.group_id) :
    balance_schedule_for_job df [x, y] =
      df.map (fun r =>
        if r.group_id == ry.group_id then
          { r with actual_assignment := r.actual_assignment.flip }
        else r) ∧
    lookupPattern (balance_schedule_for_job df [x, y]) x =
      some rx.actual_assignment ∧
    lookupPattern (balance_schedule_for_job df [x, y]) y =
      some (ry.actual_assignment.flip) := by
  have hmain : balance_schedule_for_job df [x, y] =
      df.map (fun r =>
        if r.group_id == ry.group_id then
          { r with actual_assignment := r.actual_assignment.flip }
        else r) := by
    unfold balance_schedule_for_job
    rw [if_neg (by simp), hsub]
    dsimp only
    rw [if_neg (not_not_intro hsame)]
  refine ⟨hmain, ?_, ?_⟩
  · rw [hmain]
    unfold lookupPattern
    rw [filter_map_comm _ _ (fun r => by by_cases hc : r.group_id = ry.group_id <;> simp [hc])]
    rw [hux]
    simp [if_neg, (by simpa using hgrp : ¬ (rx.group_id = ry.group_id))]
  · rw [hmain]
    unfold lookupPattern
    rw [filter_map_comm _ _ (fun r => by by_cases hc : r.group_id = ry.group_id <;> simp [hc])]
    rw [huy]
    simp

/-- C7 amended witness: staff 1 and 2 of c7_df2 share pattern A but sit
in groups 10 and 20; after the repair staff 1 keeps A and staff 2 holds B
and the whole of group 20 (staff 2 and 3) is flipped. -/
theorem balance_schedule_for_job_opposite_witness :
    balance_schedule_for_job c7_df2 [1, 2] =
      c7_df2.map (fun r =>
        if r.group_id == (20 : Nat) then
          { r with actual_assignment := r.actual_assignment.flip }
        else r) ∧
    lookupPattern (balance_schedule_for_job c7_df2 [1, 2]) 1 =
      some Pattern.A ∧
    lookupPattern (balance_schedule_for_job c7_df2 [1, 2]) 2 =
      some Pattern.B :=
  balance_schedule_for_job_opposite c7_df2 1 2
    ⟨1, 1005, 10, .A, false⟩ ⟨2, 1006, 20, .A, false⟩
    (by decide) (by decide) (by decide) (by decide) (by decide)

/-- A row-wise update that keeps staff ids and fixes every row of one
staff id leaves that id's rows unchanged. -/
theorem staffRows_map_eq (df : List Staff) (sid : Nat) (f : Staff → Staff)
    (hid : ∀ r, (f r).staff_id = r.staff_id)
    (hfix : ∀ r, r.staff_id = sid → f r = r) :
    staffRows (df.map f) sid = staffRows df sid := by
  unfold staffRows
  exact filter_map_fix f _ (fun r => by simp [hid])
    (fun r hr => hfix r (by simpa using hr)) df

/-- The group-flip loop of the balance engine never touches a pinned
staff id's rows. -/
theorem balance_swap_loop_preserves (pinned : List Nat)
    (lp sp : Pattern) (sid : Nat) (h : pinned.contains sid = true) :
    ∀ (gs : List GroupInfo) (df : List Staff) (diff : Nat),
      staffRows (balance_swap_loop pinned lp sp gs df diff).1 sid =
        staffRows df sid := by
  intro gs
  induction gs with
  | nil => intro df diff; rfl
  | cons g rest ih =>
    intro df diff
    simp only [balance_swap_loop]
    split
    · rfl
    · split
      · rw [ih]
        apply staffRows_map_eq
        · intro r
          dsimp only
          split <;> rfl
        · intro r hr
          apply if_neg
          intro hc
          exact hc.2 (hr ▸ h)
      · exact ih df diff

/-- C6 part 1: balance_pattern_distribution never touches a pinned id. -/
theorem balance_pattern_distribution_preserves_pinned (df : List Staff)
    (pinned : List Nat) (sid : Nat) (h : pinned.contains sid = true) :
    staffRows (balance_pattern_distribution df pinned) sid =
      staffRows df sid := by
  unfold balance_pattern_distribution
  dsimp only
  split
  · rfl
  · exact balance_swap_loop_preserves pinned _ _ sid h _ df _

/-- C6 part 2: the single-role balance never touches a pinned id. -/
theorem balance_single_role_preserves (df : List Staff) (role : Nat)
    (pinned : List Nat) (sid : Nat) (h : pinned.contains sid = true) :
    staffRows (balance_single_role_patterns df role pinned) sid =
      staffRows df sid := by
  unfold balance_single_role_patterns
  dsimp only
  repeat' split
  any_goals rfl
  all_goals
    apply staffRows_map_eq
    case hid =>
      intro r
      dsimp only
      split <;> rfl
    case hfix =>
      intro r hr
      apply if_neg
      intro hc
      have hmem := List.mem_of_elem_eq_true hc
      rcases List.mem_map.1 hmem with ⟨st, hst, hid⟩
      have hst' := List.mem_of_mem_take hst
      have hcond := of_decide_eq_true ((List.mem_filter.1 hst').2)
      exact hcond.2 (by rw [hid, hr]; exact h)

/-- C6 part 3: the role-based pass never touches a pinned id. -/
theorem balance_role_patterns_preserves_pinned (df : List Staff)
    (pinned : List Nat) (sid : Nat) (h : pinned.contains sid = true) :
    staffRows (balance_role_patterns df pinned) sid = staffRows df sid := by
  have aux : ∀ (d : List Staff) (role : Nat),
      staffRows (balance_single_role_patterns d role pinned) sid =
        staffRows d sid :=
    fun d role => balance_single_role_preserves d role pinned sid h
  unfold balance_role_patterns
  dsimp only
  split <;> split <;> simp only [aux]

/-- C6.  For every staff table and pinned id set, the group-based pass,
the role-based pass and its single-role helper all leave every pinned
staff id's rows — in particular their actual_assignment — unchanged. -/
theorem c6_balance_passes_preserve_pinned (df : List Staff)
    (pinned : List Nat) (role sid : Nat)
    (h : pinned.contains sid = true) :
    staffRows (balance_pattern_distribution df pinned) sid =
      staffRows df sid ∧
    staffRows (balance_role_patterns df pinned) sid = staffRows df sid ∧
    staffRows (balance_single_role_patterns df role pinned) sid =
      staffRows df sid :=
  ⟨balance_pattern_distribution_preserves_pinned df pinned sid h,
   balance_role_patterns_preserves_pinned df pinned sid h,
   balance_single_role_preserves df role pinned sid h⟩

/-- C6 witness at a concrete imbalanced table with staff 7 pinned. -/
theorem c6_balance_passes_preserve_pinned_witness :
    staffRows (balance_pattern_distribution c3_df [7]) 7 =
      staffRows c3_df 7 ∧
    staffRows (balance_role_patterns c3_df [7]) 7 = staffRows c3_df 7 ∧
    staffRows (balance_single_role_patterns c3_df 1005 [7]) 7 =
      staffRows c3_df 7 :=
  c6_balance_passes_preserve_pinned c3_df [7] 1005 7 (by decide)

/-- A counselor-activity day whose roster is empty or already holds at
least one staff member of each role is left untouched by the repair step. -/
theorem ensure_ca_day_id (df_staff_clean : List Staff)
    (t : List Assignment) (d : String)
    (h : ca_day_staff_ids t d = [] ∨
      (1 ≤ ((ca_day_staff_roles t df_staff_clean d).filter
          (fun r => r.role_id == 1005)).length ∧
       1 ≤ ((ca_day_staff_roles t df_staff_clean d).filter
          (fun r => r.role_id == 1006)).length)) :
    ensure_ca_day df_staff_clean t d = t := by
  unfold ensure_ca_day
  dsimp only
  rcases h with h | ⟨hC, hJC⟩
  · rw [if_pos h]
  · split
    · rfl
    · split
      · rfl
      · split
        · rfl
        · rename_i h1 h2 h3
          exact absurd ⟨by omega, by omega⟩ h3

/-- Folding the counselor-activity repair over days whose rosters all
already satisfy the role condition changes nothing. -/
theorem ca_fold_id (df_staff_clean : List Staff) :
    ∀ (ds : List String) (t : List Assignment),
      (∀ d ∈ ds, ca_day_staff_ids t d = [] ∨
        (1 ≤ ((ca_day_staff_roles t df_staff_clean d).filter
            (fun r => r.role_id == 1005)).length ∧
         1 ≤ ((ca_day_staff_roles t df_staff_clean d).filter
            (fun r => r.role_id == 1006)).length)) →
      ds.foldl (ensure_ca_day df_staff_clean) t = ds.foldl (fun t' _ => t') t
  | [], _, _ => rfl
  | d :: ds, t, h => by
    simp only [List.foldl_cons]
    rw [ensure_ca_day_id df_staff_clean t d (h d (by simp))]
    exact ca_fold_id df_staff_clean ds t
      (fun d' hd' => h d' (by simp [hd']))

/-- A tie-dye day already holding at least 2 staff is left untouched. -/
theorem ensure_td_day_id (df_staff_clean : List Staff)
    (locked : List (Nat × String)) (t : List Assignment) (d : String)
    (h : 2 ≤ (t.filter
      (fun r => r.day_name == d ∧ r.job_id == some 1045)).length) :
    ensure_td_day df_staff_clean locked t d = t := by
  unfold ensure_td_day
  dsimp only
  split
  · rfl
  · rename_i hlt
    exact absurd h hlt

/-- Folding the tie-dye repair over days that all already hold ≥ 2 staff
changes nothing. -/
theorem td_fold_id (df_staff_clean : List Staff)
    (locked : List (Nat × String)) :
    ∀ (ds : List String) (t : List Assignment),
      (∀ d ∈ ds, 2 ≤ (t.filter
        (fun r => r.day_name == d ∧ r.job_id == some 1045)).length) →
      ds.foldl (ensure_td_day df_staff_clean locked) t =
        ds.foldl (fun t' _ => t') t
  | [], _, _ => rfl
  | d :: ds, t, h => by
    simp only [List.foldl_cons]
    rw [ensure_td_day_id df_staff_clean locked t d (h d (by simp))]
    exact td_fold_id df_staff_clean locked ds t
      (fun d' hd' => h d' (by simp [hd']))

/-- A fold that ignores its accumulator argument is the identity. -/
theorem foldl_const_id {α β : Type} (l : List β) (t : α) :
    l.foldl (fun t' _ => t') t = t := by
  induction l with
  | nil => rfl
  | cons b l ih => simp only [List.foldl_cons]; exact ih

/-- C8 amended.  Each validator is a no-op on any table already
satisfying its target condition — every counselor-activity day holds at
least one counselor and one JC (or nobody), and every effective tie-dye
day holds at least 2 staff.  Hence re-running a validator is a no-op
whenever its first run achieved its condition; the c8 counterexample
shows ensure_counselor_on_counselor_activity is NOT idempotent in
general, because a repaired day can end with zero staff of the other
role, which the second run repairs in the opposite direction. -/
theorem c8_validators_no_op_on_valid (t : List Assignment)
    (df_staff_clean : List Staff) (df_days : List String)
    (cfg : Option (List String)) (locked : List (Nat × String))
    (hca : ca_mix_ok t df_staff_clean = true)
    (htd : td_min_ok t df_days cfg = true) :
    ensure_counselor_on_counselor_activity t df_staff_clean = t ∧
    ensure_minimum_tie_dye_staff t df_staff_clean df_days cfg locked = t := by
  constructor
  · unfold ensure_counselor_on_counselor_activity
    dsimp only
    split
    · rfl
    · unfold ca_mix_ok at hca
      rw [ca_fold_id df_staff_clean _ t
        (fun d hd => by
          have := List.all_eq_true.1 hca d hd
          simpa using this)]
      exact foldl_const_id _ t
  · unfold ensure_minimum_tie_dye_staff
    unfold td_min_ok at htd
    rw [td_fold_id df_staff_clean locked _ t
      (fun d hd => by
        have := List.all_eq_true.1 htd d hd
        simpa using this)]
    exact foldl_const_id _ t

/-- C8 amended witness: on a table whose counselor activity holds one
counselor and one JC and whose tie-dye day holds two staff, both
validators return the table unchanged. -/
theorem c8_validators_no_op_on_valid_witness :
    ensure_counselor_on_counselor_activity c8_ok_t c8_staff = c8_ok_t ∧
    ensure_minimum_tie_dye_staff c8_ok_t c8_staff four_days none [] =
      c8_ok_t :=
  c8_validators_no_op_on_valid c8_ok_t c8_staff four_days none []
    (by decide) (by decide)

/-- Members of uniqueKeepFirstAux come from the input and were unseen. -/
theorem mem_uniqueKeepFirstAux {x : String} :
    ∀ (l : List String) (seen : List String),
      x ∈ uniqueKeepFirstAux seen l → x ∈ l ∧ seen.contains x = false
  | [], _, h => by simp [uniqueKeepFirstAux] at h
  | d :: rest, seen, h => by
    simp only [uniqueKeepFirstAux] at h
    split at h
    · rcases mem_uniqueKeepFirstAux rest seen h with ⟨h1, h2⟩
      exact ⟨by simp [h1], h2⟩
    · rename_i hns
      rcases List.mem_cons.1 h with rfl | h
      · exact ⟨by simp, by simpa using hns⟩
      · rcases mem_uniqueKeepFirstAux rest (d :: seen) h with ⟨h1, h2⟩
        refine ⟨by simp [h1], ?_⟩
        simp only [List.contains_cons, Bool.or_eq_false_iff] at h2
        exact h2.2

/-- uniqueKeepFirstAux produces no duplicates. -/
theorem uniqueKeepFirstAux_nodup :
    ∀ (l : List String) (seen : List String),
      (uniqueKeepFirstAux seen l).Nodup
  | [], _ => List.nodup_nil
  | d :: rest, seen => by
    simp only [uniqueKeepFirstAux]
    split
    · exact uniqueKeepFirstAux_nodup rest seen
    · refine List.nodup_cons.2 ⟨?_, uniqueKeepFirstAux_nodup rest (d :: seen)⟩
      intro hmem
      have h2 := (mem_uniqueKeepFirstAux rest (d :: seen) hmem).2
      simp at h2

/-- The pandas-style unique day list has no duplicates. -/
theorem uniqueKeepFirst_nodup (l : List String) :
    (uniqueKeepFirst l).Nodup :=
  uniqueKeepFirstAux_nodup l []

/-- Every assignment and every locked pair produced by one day of the
counselor-activity pre-assignment carries that day's name. -/
theorem pre_assign_ca_day_days (df_staff_clean : List Staff)
    (df_hardcoded : List HardAssign) (d : String) :
    (∀ a ∈ (pre_assign_ca_day df_staff_clean df_hardcoded d).1,
      a.day_name = d) ∧
    (∀ p ∈ (pre_assign_ca_day df_staff_clean df_hardcoded d).2, p.2 = d) := by
  unfold pre_assign_ca_day
  dsimp only
  split
  · simp
  · split <;> simp_all

/-- Filtering a Nodup-day flatMap by one member day recovers exactly that
day's block. -/
theorem flatMap_filter_day (f : String → List Assignment)
    (hf : ∀ d0, ∀ a ∈ f d0, a.day_name = d0) :
    ∀ (ds : List String), ds.Nodup → ∀ d ∈ ds,
      (ds.flatMap f).filter (fun a => a.day_name == d) = f d := by
  intro ds
  induction ds with
  | nil => intro _ d hd; simp at hd
  | cons d0 rest ih =>
    intro hnd d hd
    have hnd' := List.nodup_cons.1 hnd
    simp only [List.flatMap_cons, List.filter_append]
    rcases List.mem_cons.1 hd with rfl | hd'
    · have h1 : (f d).filter (fun a => a.day_name == d) = f d :=
        List.filter_eq_self.2 (fun a ha => by simp [hf d a ha])
      have h2 : (rest.flatMap f).filter (fun a => a.day_name == d) = [] := by
        apply List.filter_eq_nil_iff.2
        intro a ha
        rcases List.mem_flatMap.1 ha with ⟨d1, hd1, ha1⟩
        have hday := hf d1 a ha1
        simp only [hday]
        intro hcon
        exact hnd'.1 ((eq_of_beq hcon) ▸ hd1)
      rw [h1, h2, List.append_nil]
    · have hne : d0 ≠ d := fun hEq => hnd'.1 (hEq ▸ hd')
      have h1 : (f d0).filter (fun a => a.day_name == d) = [] := by
        apply List.filter_eq_nil_iff.2
        intro a ha
        simp [hf d0 a ha, hne]
      rw [h1, List.nil_append]
      exact ih hnd'.2 d hd'

/-- C10.  On every day of the loaded day list that is not a staff-game
day, where counselor activity is not already hardcoded and at least one
counselor and one JC with the day's pattern are available outside
hardcoded/protected duties, the pre-assignment locks exactly one
counselor and one JC (the heads of the availability pools) onto job 1005
with kind 'pre_assigned_locked', and records both (staff, day) pairs in
the locked set handed to later repairs. -/
theorem c10_pre_assign_counselor_activity (df_staff_clean : List Staff)
    (df_days : List String) (df_hardcoded : List HardAssign) (d : String)
    (hd : d ∈ uniqueKeepFirst df_days)
    (hsg : d ∉ staffGameDaysOf df_hardcoded)
    (hca : df_hardcoded.filter (fun h =>
      lowerString h.day_name == lowerString d ∧ h.job_id == 1005) = [])
    (hc : availableForCA df_staff_clean df_hardcoded 1005 d ≠ [])
    (hjc : availableForCA df_staff_clean df_hardcoded 1006 d ≠ []) :
    ∃ c jc,
      (availableForCA df_staff_clean df_hardcoded 1005 d).head? = some c ∧
      (availableForCA df_staff_clean df_hardcoded 1006 d).head? = some jc ∧
      c.role_id = 1005 ∧ jc.role_id = 1006 ∧
      c.actual_assignment = day_pattern d ∧
      jc.actual_assignment = day_pattern d ∧
      ((pre_assign_counselor_activity df_staff_clean df_days
          df_hardcoded).1.filter (fun a => a.day_name == d)) =
        [⟨d, c.staff_id, some 1005, "pre_assigned_locked"⟩,
         ⟨d, jc.staff_id, some 1005, "pre_assigned_locked"⟩] ∧
      (c.staff_id, d) ∈
        (pre_assign_counselor_activity df_staff_clean df_days
          df_hardcoded).2.1 ∧
      (jc.staff_id, d) ∈
        (pre_assign_counselor_activity df_staff_clean df_days
          df_hardcoded).2.1 := by
  rcases List.exists_mem_of_ne_nil _ hc with ⟨c0, hc0⟩
  rcases List.exists_mem_of_ne_nil _ hjc with ⟨jc0, hjc0⟩
  obtain ⟨c, hcHead⟩ : ∃ c,
      (availableForCA df_staff_clean df_hardcoded 1005 d).head? = some c := by
    cases h : (availableForCA df_staff_clean df_hardcoded 1005 d).head? with
    | none => exact absurd (List.head?_eq_none_iff.1 h) hc
    | some c => exact ⟨c, rfl⟩
  obtain ⟨jc, hjcHead⟩ : ∃ jc,
      (availableForCA df_staff_clean df_hardcoded 1006 d).head? = some jc := by
    cases h : (availableForCA df_staff_clean df_hardcoded 1006 d).head? with
    | none => exact absurd (List.head?_eq_none_iff.1 h) hjc
    | some jc => exact ⟨jc, rfl⟩
  have hcMem : c ∈ availableForCA df_staff_clean df_hardcoded 1005 d :=
    List.mem_of_mem_head? (by simp [hcHead])
  have hjcMem : jc ∈ availableForCA df_staff_clean df_hardcoded 1006 d :=
    List.mem_of_mem_head? (by simp [hjcHead])
  have hcProps := of_decide_eq_true ((List.mem_filter.1 hcMem).2)
  have hjcProps := of_decide_eq_true ((List.mem_filter.1 hjcMem).2)
  have hdayBlock : pre_assign_ca_day df_staff_clean df_hardcoded d =
      ([⟨d, c.staff_id, some 1005, "pre_assigned_locked"⟩,
        ⟨d, jc.staff_id, some 1005, "pre_assigned_locked"⟩],
       [(c.staff_id, d), (jc.staff_id, d)]) := by
    unfold pre_assign_ca_day
    dsimp only
    rw [if_neg (fun hne => hne hca)]
    rw [hcHead, hjcHead]
  have hdays' : d ∈ (uniqueKeepFirst df_days).filter
      (fun d0 => ¬ (staffGameDaysOf df_hardcoded).contains d0) :=
    List.mem_filter.2 ⟨hd, by simpa using hsg⟩
  have hnd : ((uniqueKeepFirst df_days).filter
      (fun d0 => ¬ (staffGameDaysOf df_hardcoded).contains d0)).Nodup :=
    (uniqueKeepFirst_nodup df_days).filter _
  refine ⟨c, jc, hcHead, hjcHead,
    by simpa using hcProps.1, by simpa using hjcProps.1,
    by simpa using hcProps.2.1, by simpa using hjcProps.2.1, ?_, ?_, ?_⟩
  · show (((uniqueKeepFirst df_days).filter _).flatMap
      (fun d0 => (pre_assign_ca_day df_staff_clean df_hardcoded d0).1)).filter
        (fun a => a.day_name == d) = _
    rw [flatMap_filter_day _
      (fun d0 => (pre_assign_ca_day_days df_staff_clean df_hardcoded d0).1)
      _ hnd d hdays']
    rw [hdayBlock]
  · show (c.staff_id, d) ∈ ((uniqueKeepFirst df_days).filter _).flatMap
      (fun d0 => (pre_assign_ca_day df_staff_clean df_hardcoded d0).2)
    exact List.mem_flatMap.2 ⟨d, hdays', by rw [hdayBlock]; simp⟩
  · show (jc.staff_id, d) ∈ ((uniqueKeepFirst df_days).filter _).flatMap
      (fun d0 => (pre_assign_ca_day df_staff_clean df_hardcoded d0).2)
    exact List.mem_flatMap.2 ⟨d, hdays', by rw [hdayBlock]; simp⟩

/-- C10 witness: with staff game on thursday and staff 4 hardcoded to a
protected duty on monday, monday receives exactly counselor 1 and JC 2,
both locked. -/
theorem c10_pre_assign_counselor_activity_witness :
    ∃ c jc,
      (availableForCA c9_staff c10_hardcoded 1005 "monday").head? =
        some c ∧
      (availableForCA c9_staff c10_hardcoded 1006 "monday").head? =
        some jc ∧
      c.role_id = 1005 ∧ jc.role_id = 1006 ∧
      c.actual_assignment = day_pattern "monday" ∧
      jc.actual_assignment = day_pattern "monday" ∧
      ((pre_assign_counselor_activity c9_staff four_days
          c10_hardcoded).1.filter (fun a => a.day_name == "monday")) =
        [⟨"monday", c.staff_id, some 1005, "pre_assigned_locked"⟩,
         ⟨"monday", jc.staff_id, some 1005, "pre_assigned_locked"⟩] ∧
      (c.staff_id, "monday") ∈
        (pre_assign_counselor_activity c9_staff four_days
          c10_hardcoded).2.1 ∧
      (jc.staff_id, "monday") ∈
        (pre_assign_counselor_activity c9_staff four_days
          c10_hardcoded).2.1 :=
  c10_pre_assign_counselor_activity c9_staff four_days c10_hardcoded
    "monday" (by decide) (by decide) (by decide) (by decide) (by decide)

/-- Every id picked by the tie-dye pull selection names a row of the
available-staff pool. -/
theorem tieDyeStaffToAdd_mem (swappable : List Assignment)
    (available : List Staff) (needed : Nat) :
    ∀ x ∈ tieDyeStaffToAdd swappable available needed,
      ∃ st ∈ available, st.staff_id = x := by
  have aux : ∀ (step : List Nat → Staff → List Nat),
      (∀ acc st, step acc st = acc ∨ step acc st = acc ++ [st.staff_id]) →
      ∀ (l : List Staff) (acc : List Nat),
        (∀ y ∈ acc, ∃ st ∈ available, st.staff_id = y) →
        (∀ st ∈ l, st ∈ available) →
        ∀ y ∈ l.foldl step acc, ∃ st ∈ available, st.staff_id = y := by
    intro step hstep l
    induction l with
    | nil => intro acc hacc _ y hy; exact hacc y hy
    | cons st l ih =>
      intro acc hacc hl y hy
      simp only [List.foldl_cons] at hy
      refine ih (step acc st) ?_ (fun s hs => hl s (by simp [hs])) y hy
      intro z hz
      rcases hstep acc st with he | he
      · exact hacc z (he ▸ hz)
      · rw [he] at hz
        rcases List.mem_append.1 hz with hz | hz
        · exact hacc z hz
        · have : z = st.staff_id := by simpa using hz
          exact ⟨st, hl st (by simp), this.symm⟩
  intro x hx
  unfold tieDyeStaffToAdd at hx
  dsimp only at hx
  have hstep1 : ∀ (acc : List Nat) (st : Staff),
      (if acc.length ≥ needed then acc
       else match swappable.find? (fun r => r.staff_id == st.staff_id) with
         | none => acc
         | some row =>
           if jobStaffCount swappable row.job_id > 1 then
             acc ++ [st.staff_id]
           else acc) = acc ∨
      (if acc.length ≥ needed then acc
       else match swappable.find? (fun r => r.staff_id == st.staff_id) with
         | none => acc
         | some row =>
           if jobStaffCount swappable row.job_id > 1 then
             acc ++ [st.staff_id]
           else acc) = acc ++ [st.staff_id] := by
    intro acc st
    repeat' split
    all_goals first | exact Or.inl rfl | exact Or.inr rfl
  have hstep2 : ∀ (acc : List Nat) (st : Staff),
      (if acc.length ≥ needed then acc
       else if acc.contains st.staff_id then acc
       else match swappable.find? (fun r => r.staff_id == st.staff_id) with
         | none => acc
         | some _ => acc ++ [st.staff_id]) = acc ∨
      (if acc.length ≥ needed then acc
       else if acc.contains st.staff_id then acc
       else match swappable.find? (fun r => r.staff_id == st.staff_id) with
         | none => acc
         | some _ => acc ++ [st.staff_id]) = acc ++ [st.staff_id] := by
    intro acc st
    repeat' split
    all_goals first | exact Or.inl rfl | exact Or.inr rfl
  have hfirst : ∀ y ∈ available.foldl (fun acc st =>
      if acc.length ≥ needed then acc
      else match swappable.find? (fun r => r.staff_id == st.staff_id) with
        | none => acc
        | some row =>
          if jobStaffCount swappable row.job_id > 1 then
            acc ++ [st.staff_id]
          else acc) [],
      ∃ st ∈ available, st.staff_id = y :=
    aux _ hstep1 available [] (by simp) (fun st hs => hs)
  split at hx
  · exact aux _ hstep2 available _ hfirst (fun st hs => hs) x hx
  · exact hfirst x hx

/-- td_update_one leaves every filter untouched that ignores the job
column, rejects the appended row, and keeps no row of the targeted
(staff, day) pair. -/
theorem td_update_one_filter (d : String) (t' : List Assignment) (x : Nat)
    (p : Assignment → Bool)
    (hp : ∀ r, p { r with job_id := some 1045 } = p r)
    (hnew : p ⟨d, x, some 1045, "normal"⟩ = false)
    (hfix : ∀ r, p r = true → ¬(r.day_name = d ∧ r.staff_id = x)) :
    (td_update_one d t' x).filter p = t'.filter p := by
  unfold td_update_one
  split
  · apply filter_map_fix
    · intro r
      dsimp only
      split
      · exact hp r
      · rfl
    · intro r hr
      rw [if_neg]
      intro hcond
      exact hfix r hr ⟨by simpa using hcond.1, by simpa using hcond.2⟩
  · rw [List.filter_append]
    simp [List.filter_cons, hnew]

/-- A (staff, day) pair different from the one being pulled keeps its
rows across td_update_one. -/
theorem td_update_one_rowsFor (d : String) (t' : List Assignment) (x : Nat)
    (sid : Nat) (d0 : String) (hne : ¬(sid = x ∧ d0 = d)) :
    rowsFor (td_update_one d t' x) sid d0 = rowsFor t' sid d0 := by
  unfold rowsFor
  apply td_update_one_filter
  · intro r; rfl
  · by_cases h1 : x = sid
    · by_cases h2 : d = d0
      · exact absurd ⟨h1.symm, h2.symm⟩ hne
      · simp [h2]
    · simp [h1]
  · intro r hr hrd
    have h1 : r.staff_id = sid := by simpa using (of_decide_eq_true hr).1
    have h2 : r.day_name = d0 := by simpa using (of_decide_eq_true hr).2
    exact hne ⟨h1 ▸ hrd.2, h2 ▸ hrd.1⟩

/-- Other days' rows are untouched by td_update_one. -/
theorem td_update_one_dayRows (d : String) (t' : List Assignment) (x : Nat)
    (d0 : String) (hne : d0 ≠ d) :
    dayRows (td_update_one d t' x) d0 = dayRows t' d0 := by
  unfold dayRows
  apply td_update_one_filter
  · intro r; rfl
  · simpa using Ne.symm hne
  · intro r hr hrd
    have h2 : r.day_name = d0 := by simpa using hr
    exact hne (h2 ▸ hrd.1)

/-- A tie-dye row of td_update_one's output was already a tie-dye row or
belongs to the pulled staff member on the processed day. -/
theorem td_update_one_hasTD (d : String) (t' : List Assignment) (x : Nat)
    (s : Nat) (d'' : String) (h : hasTD (td_update_one d t' x) s d'') :
    hasTD t' s d'' ∨ (s = x ∧ d'' = d) := by
  unfold td_update_one at h
  rcases h with ⟨a, ha, hday, hstaff, hjob⟩
  split at ha
  · rcases List.mem_map.1 ha with ⟨b, hb, rfl⟩
    by_cases hcond : (b.day_name == d) = true ∧ (b.staff_id == x) = true
    · right
      rw [if_pos hcond] at hday hstaff
      exact ⟨hstaff ▸ (by simpa using hcond.2),
        hday ▸ (by simpa using hcond.1)⟩
    · left
      rw [if_neg hcond] at hday hstaff hjob
      exact ⟨b, hb, hday, hstaff, hjob⟩
  · rcases List.mem_append.1 ha with ha | ha
    · exact Or.inl ⟨a, ha, hday, hstaff, hjob⟩
    · right
      have : a = ⟨d, x, some 1045, "normal"⟩ := by simpa using ha
      subst this
      exact ⟨hstaff.symm, hday.symm⟩

/-- Fold form of td_update_one_rowsFor over a pulled-id list. -/
theorem td_fold_rowsFor (d : String) (sid : Nat) (d0 : String) :
    ∀ (adds : List Nat) (t' : List Assignment),
      (∀ x ∈ adds, ¬(sid = x ∧ d0 = d)) →
      rowsFor (adds.foldl (td_update_one d) t') sid d0 =
        rowsFor t' sid d0
  | [], _, _ => rfl
  | x :: adds, t', h => by
    simp only [List.foldl_cons]
    rw [td_fold_rowsFor d sid d0 adds (td_update_one d t' x)
      (fun y hy => h y (by simp [hy]))]
    exact td_update_one_rowsFor d t' x sid d0 (h x (by simp))

/-- Fold form of td_update_one_dayRows. -/
theorem td_fold_dayRows (d : String) (d0 : String) (hne : d0 ≠ d) :
    ∀ (adds : List Nat) (t' : List Assignment),
      dayRows (adds.foldl (td_update_one d) t') d0 = dayRows t' d0
  | [], _ => rfl
  | x :: adds, t' => by
    simp only [List.foldl_cons]
    rw [td_fold_dayRows d d0 hne adds (td_update_one d t' x)]
    exact td_update_one_dayRows d t' x d0 hne

/-- Fold form of td_update_one_hasTD. -/
theorem td_fold_hasTD (d : String) (s : Nat) (d'' : String) :
    ∀ (adds : List Nat) (t' : List Assignment),
      hasTD (adds.foldl (td_update_one d) t') s d'' →
      hasTD t' s d'' ∨ (s ∈ adds ∧ d'' = d)
  | [], _, h => Or.inl h
  | x :: adds, t', h => by
    simp only [List.foldl_cons] at h
    rcases td_fold_hasTD d s d'' adds (td_update_one d t' x) h with h1 | h1
    · rcases td_update_one_hasTD d t' x s d'' h1 with h2 | h2
      · exact Or.inl h2
      · exact Or.inr ⟨by simp [h2.1], h2.2⟩
    · exact Or.inr ⟨by simp [h1.1], h1.2⟩

/-- A locked (staff, day) pair keeps its rows across one day's tie-dye
repair, whichever day is being repaired. -/
theorem ensure_td_day_rowsFor_locked (staff : List Staff)
    (locked : List (Nat × String)) (t : List Assignment) (d1 : String)
    (sid : Nat) (d : String) (hl : (sid, d) ∈ locked) :
    rowsFor (ensure_td_day staff locked t d1) sid d = rowsFor t sid d := by
  unfold ensure_td_day
  dsimp only
  split
  · rfl
  · split
    · rfl
    · apply td_fold_rowsFor
      intro x hx
      rcases tieDyeStaffToAdd_mem _ _ _ x hx with ⟨st, hst, hid⟩
      rintro ⟨hsx, hdd⟩
      have hprops := of_decide_eq_true ((List.mem_filter.1 hst).2)
      apply hprops.2.2
      have hmemLock : sid ∈ td_locked_ids locked d1 := by
        unfold td_locked_ids
        exact List.mem_map.2 ⟨(sid, d),
          List.mem_filter.2 ⟨hl, by simp [hdd]⟩, rfl⟩
      rw [hid, ← hsx]
      exact List.elem_eq_true_of_mem hmemLock

/-- Other days' rows are untouched by one day's tie-dye repair. -/
theorem ensure_td_day_dayRows (staff : List Staff)
    (locked : List (Nat × String)) (t : List Assignment) (d d0 : String)
    (hne : d0 ≠ d) :
    dayRows (ensure_td_day staff locked t d) d0 = dayRows t d0 := by
  unfold ensure_td_day
  dsimp only
  split
  · rfl
  · split
    · rfl
    · exact td_fold_dayRows d d0 hne _ t

/-- A tie-dye row of one day's repair output was already tie-dye, or its
staff member was pulled on the repaired day from a swappable same-day,
same-pattern assignment. -/
theorem ensure_td_day_hasTD (staff : List Staff)
    (locked : List (Nat × String)) (t : List Assignment) (d : String)
    (s : Nat) (d'' : String)
    (h : hasTD (ensure_td_day staff locked t d) s d'') :
    hasTD t s d'' ∨ (d'' = d ∧ pulled_ok t staff s d) := by
  unfold ensure_td_day at h
  dsimp only at h
  split at h
  · exact Or.inl h
  · split at h
    · exact Or.inl h
    · rcases td_fold_hasTD d s d'' _ t h with h1 | ⟨hmem, hdd⟩
      · exact Or.inl h1
      · right
        refine ⟨hdd, ?_, ?_⟩
        · rcases tieDyeStaffToAdd_mem _ _ _ s hmem with ⟨st, hst, hid⟩
          have hprops := of_decide_eq_true ((List.mem_filter.1 hst).2)
          have hmem2 : st.staff_id ∈ (td_swappable t d).map (·.staff_id) :=
            List.mem_of_elem_eq_true hprops.1
          rcases List.mem_map.1 hmem2 with ⟨a, ha, haid⟩
          have ha1 := List.mem_filter.1 ha
          have ha2 := List.mem_filter.1 ha1.1
          have hcond := of_decide_eq_true ha1.2
          exact ⟨a, ha2.1, by simpa using ha2.2, by rw [haid, hid],
            by simpa using hcond.1, hcond.2⟩
        · rcases tieDyeStaffToAdd_mem _ _ _ s hmem with ⟨st, hst, hid⟩
          have hprops := of_decide_eq_true ((List.mem_filter.1 hst).2)
          exact ⟨st, (List.mem_filter.1 hst).1, hid,
            by simpa using hprops.2.1⟩

/-- pulled_ok only reads the pulled day's rows, so it transfers across
tables agreeing on that day. -/
theorem pulled_ok_transfer (t t0 : List Assignment) (staff : List Staff)
    (s : Nat) (d : String) (hday : dayRows t d = dayRows t0 d)
    (h : pulled_ok t staff s d) : pulled_ok t0 staff s d := by
  obtain ⟨⟨a, ha, h1, h2, h3, h4⟩, h5⟩ := h
  refine ⟨⟨a, ?_, h1, h2, h3, h4⟩, h5⟩
  have hmem : a ∈ dayRows t d := List.mem_filter.2 ⟨ha, by simp [h1]⟩
  rw [hday] at hmem
  exact (List.mem_filter.1 hmem).1

/-- Fold invariant of the tie-dye validator: locked pairs keep their
input rows and every new tie-dye row has a pulled_ok origin in the input,
provided the processed day list has no duplicates. -/
theorem td_fold_main (staff : List Staff) (locked : List (Nat × String)) :
    ∀ (ds : List String), ds.Nodup → ∀ (t0 t : List Assignment),
      (∀ sid d, (sid, d) ∈ locked → rowsFor t sid d = rowsFor t0 sid d) →
      (∀ d ∈ ds, dayRows t d = dayRows t0 d) →
      (∀ s d', hasTD t s d' → hasTD t0 s d' ∨ pulled_ok t0 staff s d') →
      (∀ sid d, (sid, d) ∈ locked →
        rowsFor (ds.foldl (ensure_td_day staff locked) t) sid d =
          rowsFor t0 sid d) ∧
      (∀ s d', hasTD (ds.foldl (ensure_td_day staff locked) t) s d' →
        hasTD t0 s d' ∨ pulled_ok t0 staff s d')
  | [], _, t0, t, hlock, _, htd => ⟨hlock, htd⟩
  | d :: ds, hnd, t0, t, hlock, hday, htd => by
    simp only [List.foldl_cons]
    have hnd' := List.nodup_cons.1 hnd
    apply td_fold_main staff locked ds hnd'.2 t0
      (ensure_td_day staff locked t d)
    · intro sid d0 hl
      rw [ensure_td_day_rowsFor_locked staff locked t d sid d0 hl]
      exact hlock sid d0 hl
    · intro d0 hd0
      have hne : d0 ≠ d := fun hEq => hnd'.1 (hEq ▸ hd0)
      rw [ensure_td_day_dayRows staff locked t d d0 hne]
      exact hday d0 (by simp [hd0])
    · intro s d' h
      rcases ensure_td_day_hasTD staff locked t d s d' h with h1 | ⟨rfl, hok⟩
      · exact htd s d' h1
      · right
        exact pulled_ok_transfer t t0 staff s d' (hday d' (by simp)) hok

/-- C9.  The tie-dye minimum-headcount validator never changes the rows
of any locked (staff, day) pair, and every staff member holding a
tie-dye assignment in its output either already held one in the input or
was pulled from a same-day non-protected, non-tie-dye assignment while
carrying the day's pattern.  (The day list it iterates — unique existing
assignment days, or configured days — is assumed duplicate-free, which
the unique() construction guarantees on the assignments path.) -/
theorem c9_tie_dye_validator_frame (t : List Assignment)
    (staff : List Staff) (df_days : List String)
    (cfg : Option (List String)) (locked : List (Nat × String))
    (hnd : (effective_tie_dye_days t df_days cfg).Nodup) :
    (∀ sid d, (sid, d) ∈ locked →
      rowsFor (ensure_minimum_tie_dye_staff t staff df_days cfg locked)
        sid d = rowsFor t sid d) ∧
    (∀ s d', hasTD
        (ensure_minimum_tie_dye_staff t staff df_days cfg locked) s d' →
      hasTD t s d' ∨ pulled_ok t staff s d') := by
  unfold ensure_minimum_tie_dye_staff
  exact td_fold_main staff locked (effective_tie_dye_days t df_days cfg)
    hnd t t (fun _ _ _ => rfl) (fun _ _ => rfl) (fun _ _ h => Or.inl h)

/-- C9 witness: on c9_t (monday tie dye short by one, staff 3 locked for
monday), the locked pair (3, monday) keeps its rows, and staff 4 — who
does hold tie dye in the output — was either already on tie dye or
pulled from a swappable monday assignment with pattern A. -/
theorem c9_tie_dye_validator_frame_witness :
    rowsFor (ensure_minimum_tie_dye_staff c9_t c9_staff four_days none
      [(3, "monday")]) 3 "monday" = rowsFor c9_t 3 "monday" ∧
    (hasTD c9_t 4 "monday" ∨ pulled_ok c9_t c9_staff 4 "monday") :=
  ⟨(c9_tie_dye_validator_frame c9_t c9_staff four_days none
      [(3, "monday")] (by decide)).1 3 "monday" (by simp),
   (c9_tie_dye_validator_frame c9_t c9_staff four_days none
      [(3, "monday")] (by decide)).2 4 "monday"
     ⟨⟨"monday", 4, some 1045, "normal"⟩, by decide, rfl, rfl, rfl⟩⟩

end Decathlon
